import Mathlib

/-!
Shallow embedding of the lokutor-orchestrator voice-agent core
(Go sources under pkg/orchestrator) and verification of the frozen
claims about it.

Modelling conventions:
* Go float64 values are modelled as exact rationals (every float64 value
  is a rational number); the embedding performs the same operations
  exactly.  Square roots (RMS, correlation normalisation) never have to
  be materialised: every correlation value of the form d / sqrt e is
  carried as the pair (d, e) and compared with the exact decision
  procedure surdLT below, which is proved equivalent to the real-number
  comparison.
* Go time.Time is modelled as Option Int (milliseconds); none is the
  zero time.Time, for which IsZero() is true and time.Since(...) is
  astronomically large.
* Byte slices are List Nat (each entry a byte value).
* Mutexes disappear: each Go method becomes a pure state transformer.
-/

namespace Lokutor

/-- Events produced by a VAD provider (types.go). -/
inductive VADEventType
  | speechStart
  | speechEnd
  | silence
  deriving DecidableEq, Repr

/-- VADEvent from types.go: a tagged event with a millisecond timestamp. -/
structure VADEvent where
  type : VADEventType
  timestamp : Int
  deriving DecidableEq, Repr

/-- State of the RMS voice-activity detector (vad.go).  Field for field the
Go struct RMSVAD; float64 fields become rationals, time.Time becomes
Option Int (none = zero time). -/
structure RMSVAD where
  threshold : ℚ
  silenceLimit : Int
  isSpeaking : Bool
  silenceStart : Option Int
  adaptiveMode : Bool
  noiseFloor : ℚ
  alpha : ℚ
  consecutiveFrames : Int
  minConfirmed : Int
  lastRMS : ℚ
  deriving DecidableEq, Repr

/-- NewRMSVAD (vad.go): remaining fields take Go zero values. -/
def newRMSVAD (threshold : ℚ) (silenceLimit : Int) : RMSVAD :=
  { threshold := threshold
    silenceLimit := silenceLimit
    isSpeaking := false
    silenceStart := none
    adaptiveMode := true
    noiseFloor := 5 / 1000
    alpha := 5 / 100
    consecutiveFrames := 0
    minConfirmed := 7
    lastRMS := 0 }

/-- RMSVAD.Process (vad.go lines 62-116).  The source computes
rms := v.calculateRMS(chunk) as a float64 square root; here the rms value
is passed as a parameter (an exact rational; every float64 is rational).
All decisions of Process depend on the chunk only through this value.
now is the time.Now() timestamp in milliseconds. -/
def RMSVAD.process (v : RMSVAD) (rms : ℚ) (now : Int) :
    Option VADEvent × RMSVAD :=
  let v := { v with lastRMS := rms }
  -- adaptive-mode noise-floor maintenance
  let v :=
    if v.adaptiveMode then
      if rms < v.noiseFloor then { v with noiseFloor := rms }
      else if ¬ v.isSpeaking ∧ rms < v.threshold * 2 then
        { v with noiseFloor := (1 - v.alpha) * v.noiseFloor + v.alpha * rms }
      else v
    else v
  let effectiveThreshold :=
    if v.adaptiveMode then
      let adaptiveThreshold := v.noiseFloor * 2
      let e := if adaptiveThreshold > v.threshold then adaptiveThreshold
               else v.threshold
      if e > 3 / 10 then 3 / 10 else e
    else v.threshold
  if rms > effectiveThreshold then
    let v := { v with consecutiveFrames := v.consecutiveFrames + 1 }
    if ¬ v.isSpeaking then
      if v.consecutiveFrames ≥ v.minConfirmed then
        (some ⟨.speechStart, now⟩, { v with isSpeaking := true })
      else (none, v)
    else (none, { v with silenceStart := none })
  else
    let v := { v with consecutiveFrames := 0 }
    if v.isSpeaking then
      let v := if v.silenceStart = none then { v with silenceStart := some now }
               else v
      match v.silenceStart with
      | some s =>
        if now - s ≥ v.silenceLimit then
          (some ⟨.speechEnd, now⟩,
           { v with isSpeaking := false, silenceStart := none })
        else (some ⟨.silence, now⟩, v)
      | none => (some ⟨.silence, now⟩, v)
    else (some ⟨.silence, now⟩, v)

/-- RMSVAD.Reset (vad.go). -/
def RMSVAD.reset (v : RMSVAD) : RMSVAD :=
  { v with isSpeaking := false, silenceStart := none, consecutiveFrames := 0 }

/-- RMSVAD.Clone (vad.go lines 128-134): the Go struct literal lists only
threshold, silenceLimit and minConfirmed; every other field gets its Go
zero value (false / 0 / zero time). -/
def RMSVAD.clone (v : RMSVAD) : RMSVAD :=
  { threshold := v.threshold
    silenceLimit := v.silenceLimit
    minConfirmed := v.minConfirmed
    isSpeaking := false
    silenceStart := none
    adaptiveMode := false
    noiseFloor := 0
    alpha := 0
    consecutiveFrames := 0
    lastRMS := 0 }

/-- RMSVAD.SetAdaptiveMode (vad.go). -/
def RMSVAD.setAdaptiveMode (v : RMSVAD) (enabled : Bool) : RMSVAD :=
  { v with adaptiveMode := enabled }

/-- RMSVAD.SetMinConfirmed (vad.go). -/
def RMSVAD.setMinConfirmed (v : RMSVAD) (count : Int) : RMSVAD :=
  { v with minConfirmed := count }

/-- RMSVAD.SetThreshold (vad.go). -/
def RMSVAD.setThreshold (v : RMSVAD) (threshold : ℚ) : RMSVAD :=
  { v with threshold := threshold }

/-- Run the VAD over a list of (rms, now) inputs, collecting the emitted
events in order (the reference semantics used when a claim speaks of the
event sequence on an input sequence). -/
def RMSVAD.run (v : RMSVAD) : List (ℚ × Int) → List (Option VADEvent)
  | [] => []
  | (rms, now) :: rest =>
    let (ev, v1) := v.process rms now
    ev :: v1.run rest

/-- Little-endian signed 16-bit sample from two bytes, as in
int16(chunk[i]) | (int16(chunk[i+1]) << 8) (vad.go calculateRMS,
echo_suppression.go bytesToSamples).  Byte values are reduced mod 256 as
Go bytes always are. -/
def sampleOfBytes (lo hi : Nat) : Int :=
  let u : Int := (lo % 256 : Nat) + 256 * (hi % 256 : Nat)
  if u < 32768 then u else u - 65536

/-- Sum of squared normalised samples taken pairwise, exactly the loop
for i := 0; i < len(chunk)-1; i += 2 of calculateRMS: a trailing
unpaired byte contributes nothing. -/
def sampleSquareSum : List Nat → ℚ
  | lo :: hi :: rest =>
    ((sampleOfBytes lo hi : ℚ) / 32768) ^ 2 + sampleSquareSum rest
  | _ => 0

/-- The radicand computed by RMSVAD.calculateRMS (vad.go lines 136-150):
calculateRMS returns math.Sqrt of this value.  The source returns 0 for
an empty chunk; for a single-byte chunk len(chunk)/2 = 0 and the source
computes 0.0/0.0 = NaN (sqrt(NaN) = NaN), represented here as none. -/
def calculateRMSSq (chunk : List Nat) : Option ℚ :=
  if chunk = [] then some 0
  else if chunk.length / 2 = 0 then none
  else some (sampleSquareSum chunk / (chunk.length / 2 : Nat))

/-- Message from types.go. -/
structure Message where
  role : String
  content : String
  deriving DecidableEq, Repr

/-- ConversationSession (types.go), minus the mutex.  MaxMessages is a Go
int, hence Int here. -/
structure ConversationSession where
  id : String
  context : List Message
  lastUser : String
  lastAssistant : String
  maxMessages : Int
  currentVoice : String
  currentLanguage : String
  deriving DecidableEq, Repr

/-- NewConversationSession (types.go). -/
def newConversationSession (userID : String) : ConversationSession :=
  { id := userID
    context := []
    lastUser := ""
    lastAssistant := ""
    maxMessages := 20
    currentVoice := "F1"
    currentLanguage := "en" }

/-- ConversationSession.AddMessage (types.go lines 177-189): append, then
keep only the trailing MaxMessages entries when the context overflows.
(The Go slice expression panics for MaxMessages < 0; claims only use
capacities ≥ 1 where the toNat coercion is exact.) -/
def ConversationSession.addMessage (s : ConversationSession)
    (role content : String) : ConversationSession :=
  let ctx := s.context ++ [⟨role, content⟩]
  let ctx := if (ctx.length : Int) > s.maxMessages then
               ctx.drop ((ctx.length : Int) - s.maxMessages).toNat
             else ctx
  { s with
    context := ctx
    lastUser := if role = "user" then content else s.lastUser
    lastAssistant := if role = "assistant" then content else s.lastAssistant }

/-- ConversationSession.GetContextCopy (types.go lines 199-205): returns a
copy of the context slice. -/
def ConversationSession.getContextCopy (s : ConversationSession) :
    List Message :=
  s.context

/-- The set of valid voices of Conversation.SetVoiceByString
(conversation.go lines 61-75). -/
def validVoices : List String :=
  ["F1", "F2", "F3", "F4", "F5", "M1", "M2", "M3", "M4", "M5"]

/-- Conversation.SetVoiceByString (conversation.go lines 61-75): returns
(error, updated session); on error the session is untouched. -/
def setVoiceByString (s : ConversationSession) (voice : String) :
    Option String × ConversationSession :=
  if voice ∈ validVoices then
    (none, { s with currentVoice := voice })
  else
    (some ("invalid voice: " ++ voice ++ " (must be F1-F5 or M1-M5)"), s)

/-- The set of valid languages of Conversation.SetLanguageByString
(conversation.go lines 85-99). -/
def validLanguages : List String :=
  ["en", "es", "fr", "de", "it", "pt", "ja", "zh"]

/-- Conversation.SetLanguageByString (conversation.go lines 85-99). -/
def setLanguageByString (s : ConversationSession) (language : String) :
    Option String × ConversationSession :=
  if language ∈ validLanguages then
    (none, { s with currentLanguage := language })
  else
    (some ("invalid language: " ++ language), s)

/-!
### Exact comparison of correlation values

Every correlation the echo suppressor computes has the form d / sqrt e
with d, e rational and e > 0.  surdLT decides d1 / sqrt e1 < d2 / sqrt e2
exactly; surdLT_iff proves it agrees with the real-number comparison.
-/

/-- Decide x / sqrt p < y / sqrt q for rationals with p, q > 0. -/
def surdLT (x p y q : ℚ) : Bool :=
  if x < 0 then
    if 0 ≤ y then true else x ^ 2 * q > y ^ 2 * p
  else
    if y < 0 then false else x ^ 2 * q < y ^ 2 * p

theorem surdLT_iff (x p y q : ℚ) (hp : 0 < p) (hq : 0 < q) :
    surdLT x p y q = true ↔
      (x : ℝ) / Real.sqrt p < (y : ℝ) / Real.sqrt q := by
  have hp' : (0 : ℝ) < Real.sqrt p := Real.sqrt_pos.2 (by exact_mod_cast hp)
  have hq' : (0 : ℝ) < Real.sqrt q := Real.sqrt_pos.2 (by exact_mod_cast hq)
  have hdiv : ((x : ℝ) / Real.sqrt p < (y : ℝ) / Real.sqrt q)
      ↔ (x : ℝ) * Real.sqrt q < (y : ℝ) * Real.sqrt p :=
    div_lt_div_iff₀ hp' hq'
  have hxq2 : ((x : ℝ) * Real.sqrt q) ^ 2 = (x : ℝ) ^ 2 * q := by
    rw [mul_pow, Real.sq_sqrt (by positivity)]
  have hyp2 : ((y : ℝ) * Real.sqrt p) ^ 2 = (y : ℝ) ^ 2 * p := by
    rw [mul_pow, Real.sq_sqrt (by positivity)]
  rw [hdiv]
  unfold surdLT
  rcases lt_or_le x 0 with hx | hx
  · have hx' : (x : ℝ) < 0 := by exact_mod_cast hx
    rcases le_or_lt 0 y with hy | hy
    · have hy' : (0 : ℝ) ≤ (y : ℝ) := by exact_mod_cast hy
      have hlt : (x : ℝ) * Real.sqrt q < (y : ℝ) * Real.sqrt p :=
        lt_of_lt_of_le (mul_neg_of_neg_of_pos hx' hq') (by positivity)
      simp [if_pos hx, if_pos hy, hlt]
    · have hy' : (y : ℝ) < 0 := by exact_mod_cast hy
      have h1 : (x : ℝ) * Real.sqrt q < 0 := mul_neg_of_neg_of_pos hx' hq'
      have h2 : (y : ℝ) * Real.sqrt p < 0 := mul_neg_of_neg_of_pos hy' hp'
      have key : ((x : ℝ) * Real.sqrt q < (y : ℝ) * Real.sqrt p)
          ↔ (y : ℝ) ^ 2 * p < (x : ℝ) ^ 2 * q := by
        have hsq := pow_lt_pow_iff_left₀
          (a := -((y : ℝ) * Real.sqrt p)) (b := -((x : ℝ) * Real.sqrt q))
          (by linarith) (by linarith) (two_ne_zero)
        constructor
        · intro h
          have h3 : -((y : ℝ) * Real.sqrt p) < -((x : ℝ) * Real.sqrt q) := by
            linarith
          have h4 := hsq.2 h3
          calc (y : ℝ) ^ 2 * p = ((y : ℝ) * Real.sqrt p) ^ 2 := hyp2.symm
            _ = (-((y : ℝ) * Real.sqrt p)) ^ 2 := by ring
            _ < (-((x : ℝ) * Real.sqrt q)) ^ 2 := h4
            _ = ((x : ℝ) * Real.sqrt q) ^ 2 := by ring
            _ = (x : ℝ) ^ 2 * q := hxq2
        · intro h
          have h4 : (-((y : ℝ) * Real.sqrt p)) ^ 2
              < (-((x : ℝ) * Real.sqrt q)) ^ 2 := by
            calc (-((y : ℝ) * Real.sqrt p)) ^ 2
                = ((y : ℝ) * Real.sqrt p) ^ 2 := by ring
              _ = (y : ℝ) ^ 2 * p := hyp2
              _ < (x : ℝ) ^ 2 * q := h
              _ = ((x : ℝ) * Real.sqrt q) ^ 2 := hxq2.symm
              _ = (-((x : ℝ) * Real.sqrt q)) ^ 2 := by ring
          have h3 := hsq.1 h4
          linarith
      have hcast : ((y : ℚ) ^ 2 * p < x ^ 2 * q)
          ↔ ((y : ℝ) ^ 2 * p < (x : ℝ) ^ 2 * q) := by
        constructor
        · intro h; exact_mod_cast h
        · intro h; exact_mod_cast h
      simp only [if_pos hx, if_neg (not_le.2 hy), gt_iff_lt,
        decide_eq_true_eq, key, hcast]
  · have hx' : (0 : ℝ) ≤ (x : ℝ) := by exact_mod_cast hx
    rcases lt_or_le y 0 with hy | hy
    · have hy' : (y : ℝ) < 0 := by exact_mod_cast hy
      have h1 : (0 : ℝ) ≤ (x : ℝ) * Real.sqrt q := by positivity
      have h2 : (y : ℝ) * Real.sqrt p < 0 := mul_neg_of_neg_of_pos hy' hp'
      have hnot : ¬ ((x : ℝ) * Real.sqrt q < (y : ℝ) * Real.sqrt p) := by
        intro h; linarith
      simp [if_neg (not_lt.2 hx), if_pos hy, hnot]
    · have hy' : (0 : ℝ) ≤ (y : ℝ) := by exact_mod_cast hy
      have key : ((x : ℝ) * Real.sqrt q < (y : ℝ) * Real.sqrt p)
          ↔ (x : ℝ) ^ 2 * q < (y : ℝ) ^ 2 * p := by
        have hsq := pow_lt_pow_iff_left₀
          (a := (x : ℝ) * Real.sqrt q) (b := (y : ℝ) * Real.sqrt p)
          (by positivity) (by positivity) (two_ne_zero)
        rw [← hsq, hxq2, hyp2]
      have hcast : ((x : ℚ) ^ 2 * q < y ^ 2 * p)
          ↔ ((x : ℝ) ^ 2 * q < (y : ℝ) ^ 2 * p) := by
        constructor
        · intro h; exact_mod_cast h
        · intro h; exact_mod_cast h
      simp only [if_neg (not_lt.2 hx), if_neg (not_lt.2 hy),
        decide_eq_true_eq, key, hcast]

/-!
### Echo suppressor (echo_suppression.go)

A correlation value d / sqrt e is carried as the pair below and compared
with surdLT; rad is positive whenever a pair is constructed.
-/

/-- An exact representation of num / sqrt rad. -/
structure Surd where
  num : ℚ
  rad : ℚ
  deriving DecidableEq, Repr

/-- bytesToSamples (echo_suppression.go lines 148-158): 16-bit
little-endian bytes to samples in [-1, 1]; a trailing unpaired byte is
dropped. -/
def bytesToSamples : List Nat → List ℚ
  | lo :: hi :: rest => (sampleOfBytes lo hi : ℚ) / 32768 :: bytesToSamples rest
  | _ => []

/-- calculateEnergy (echo_suppression.go lines 161-167): sum of squared
samples. -/
def calculateEnergy (samples : List ℚ) : ℚ :=
  samples.foldl (fun acc s => acc + s * s) 0

/-- The cross-correlation sums of the Go loops: sum of pairwise products
over the common length. -/
def dotProd (a b : List ℚ) : ℚ :=
  (List.zipWith (fun x y => x * y) a b).foldl (fun acc s => acc + s) 0

/-- EchoSuppressor state (echo_suppression.go), minus the mutex. -/
structure EchoSuppressor where
  playedAudioBuf : List Nat
  maxBufSize : Nat
  echoThreshold : ℚ
  echoSilenceMS : Int
  lastTTSTime : Option Int
  enabled : Bool
  recentPlaybackWindowMS : Int
  deriving DecidableEq, Repr

/-- NewEchoSuppressor (echo_suppression.go lines 26-35). -/
def newEchoSuppressor : EchoSuppressor :=
  { playedAudioBuf := []
    maxBufSize := 176400
    echoThreshold := 11 / 20
    echoSilenceMS := 1200
    lastTTSTime := none
    enabled := true
    recentPlaybackWindowMS := 1200 }

/-- RecordPlayedAudio (echo_suppression.go lines 38-56). -/
def EchoSuppressor.recordPlayedAudio (es : EchoSuppressor) (chunk : List Nat)
    (now : Int) : EchoSuppressor :=
  if ¬ es.enabled ∨ chunk = [] then es
  else
    let buf := es.playedAudioBuf ++ chunk
    let buf := if buf.length > es.maxBufSize then
                 buf.drop (buf.length - es.maxBufSize)
               else buf
    { es with playedAudioBuf := buf, lastTTSTime := some now }

/-- ClearEchoBuffer (echo_suppression.go lines 170-174). -/
def EchoSuppressor.clearEchoBuffer (es : EchoSuppressor) : EchoSuppressor :=
  { es with playedAudioBuf := [] }

/-- time.Since(es.lastTTSTime) > echoSilenceMS milliseconds.  The zero
time.Time (none) is astronomically old, so the comparison is true. -/
def EchoSuppressor.stalePlayback (es : EchoSuppressor) (now : Int) : Bool :=
  match es.lastTTSTime with
  | none => true
  | some t => now - t > es.echoSilenceMS

/-- Absolute-value envelope: entry i is the sum of |s| over the i-th block
of d samples (the envelope construction loops of maxEnvelopeCorrelation,
echo_suppression.go lines 392-409). -/
def envelopeOf (s : List ℚ) (d : Nat) : List ℚ :=
  (List.range (s.length / d)).map fun i =>
    ((s.drop (i * d)).take d).foldl (fun acc x => acc + |x|) 0

/-- maxEnvelopeCorrelation (echo_suppression.go lines 388-467): best
Pearson-style correlation of the centred envelopes over a strided sliding
search.  The returned value is num / sqrt rad; the early returns are the
exact value 0. -/
def maxEnvelopeCorrelation (inSamples refSamples : List ℚ)
    (decimation : Nat) : Surd :=
  if inSamples = [] ∨ refSamples = [] then ⟨0, 1⟩
  else
    let inEnv := envelopeOf inSamples decimation
    let refEnv := envelopeOf refSamples decimation
    let compareLen := min inEnv.length refEnv.length
    if compareLen = 0 then ⟨0, 1⟩
    else
      let inMean := ((inEnv.take compareLen).foldl (fun a x => a + x) 0)
        / (compareLen : ℚ)
      let inCentered := (inEnv.take compareLen).map (fun x => x - inMean)
      let inVar := inCentered.foldl (fun acc x => acc + x * x) 0
      if inVar ≤ 0 then ⟨0, 1⟩
      else
        let stride := if compareLen / 4 < 2 then 2 else compareLen / 4
        let searchRange := refEnv.length - compareLen + 1
        let positions := (List.range searchRange).filter
          (fun p => p % stride = 0)
        positions.foldl (fun best pos =>
          let window := (refEnv.drop pos).take compareLen
          let refMean := (window.foldl (fun a x => a + x) 0) / (compareLen : ℚ)
          let refCentered := window.map (fun x => x - refMean)
          let dot := dotProd inCentered refCentered
          let refVar := refCentered.foldl (fun acc x => acc + x * x) 0
          if refVar > 0 then
            if surdLT best.num best.rad dot (inVar * refVar) then
              ⟨dot, inVar * refVar⟩
            else best
          else best) ⟨0, 1⟩

/-- calculateCorrelation (echo_suppression.go lines 92-145): normalised
cross-correlation of the input with the tail of the reference, clamped to
[0, 1].  The normFactor == 0 early return of the source cannot fire in
exact arithmetic once both energies are nonzero. -/
def EchoSuppressor.calculateCorrelation (input reference : List Nat) : Surd :=
  if input = [] ∨ reference = [] then ⟨0, 1⟩
  else
    let inputSamples := bytesToSamples input
    let refSamples := bytesToSamples reference
    if inputSamples = [] ∨ refSamples = [] then ⟨0, 1⟩
    else
      let compareLen := min inputSamples.length refSamples.length
      let refCompare := refSamples.drop (refSamples.length - compareLen)
      let inputEnergy := calculateEnergy inputSamples
      let refCompareEnergy := calculateEnergy refCompare
      if inputEnergy = 0 ∨ refCompareEnergy = 0 then ⟨0, 1⟩
      else
        let correlation := dotProd (inputSamples.take compareLen)
          (refCompare.take compareLen)
        let c : Surd := ⟨correlation, inputEnergy * refCompareEnergy⟩
        if c.num < 0 then ⟨0, 1⟩
        else if surdLT 1 1 c.num c.rad then ⟨1, 1⟩
        else c

/-- EchoSuppressor.IsEcho (echo_suppression.go lines 59-88). -/
def EchoSuppressor.isEcho (es : EchoSuppressor) (inputChunk : List Nat)
    (now : Int) : Bool :=
  if ¬ es.enabled ∨ inputChunk = [] then false
  else if es.stalePlayback now then false
  else if es.playedAudioBuf = [] then false
  else
    let correlation :=
      EchoSuppressor.calculateCorrelation inputChunk es.playedAudioBuf
    if surdLT es.echoThreshold 1 correlation.num correlation.rad then true
    else
      let envCorr := maxEnvelopeCorrelation (bytesToSamples inputChunk)
        (bytesToSamples es.playedAudioBuf) 8
      surdLT (es.echoThreshold + 1 / 20) 1 envCorr.num envCorr.rad

/-- The bounded strided sliding search of RemoveEchoRealtime
(echo_suppression.go lines 274-301), with the running maximum and the
early exit at correlation ≥ 0.999.  The fold state carries the best pair
and the break flag. -/
def realtimeBestCorr (inSeg refSamples : List ℚ) (compareLen stride : Nat)
    (inEnergy : ℚ) : Surd :=
  let searchRange := refSamples.length - compareLen + 1
  let positions := (List.range searchRange).filter (fun p => p % stride = 0)
  (positions.foldl (fun acc pos =>
      if acc.2 then acc
      else
        let seg := (refSamples.drop pos).take compareLen
        let segEnergy := calculateEnergy seg
        if segEnergy = 0 then acc
        else
          let dot := dotProd inSeg seg
          if surdLT acc.1.num acc.1.rad dot (inEnergy * segEnergy) then
            (⟨dot, inEnergy * segEnergy⟩,
             ¬ surdLT dot (inEnergy * segEnergy) (999 / 1000) 1)
          else acc)
    ((⟨0, 1⟩ : Surd), false)).1

/-- The number of samples the realtime echo canceller compares: the
shorter of the input and the reference in samples. -/
def compareLenOf (es : EchoSuppressor) (input : List Nat) : Nat :=
  min (bytesToSamples input).length (bytesToSamples es.playedAudioBuf).length

/-- EchoSuppressor.RemoveEchoRealtime (echo_suppression.go lines 228-323).
All returns of the source produce fresh copies; a copy is the same list
here. -/
def EchoSuppressor.removeEchoRealtime (es : EchoSuppressor)
    (input : List Nat) (now : Int) : List Nat :=
  if ¬ es.enabled ∨ input = [] then input
  else if es.stalePlayback now then input
  else
    let ref := es.playedAudioBuf
    let threshold := es.echoThreshold
    if ref = [] then input
    else
      let inSamples := bytesToSamples input
      let refSamples := bytesToSamples ref
      if inSamples = [] ∨ refSamples = [] then input
      else
        let compareLen := min inSamples.length refSamples.length
        let inSeg := inSamples.take compareLen
        let inEnergy := calculateEnergy inSeg
        if inEnergy = 0 then input
        else
          let stride := if compareLen / 4 < 8 then 8 else compareLen / 4
          let maxCorr := realtimeBestCorr inSeg refSamples compareLen stride
            inEnergy
          let mute :=
            if surdLT maxCorr.num maxCorr.rad threshold 1 then
              let envCorr := maxEnvelopeCorrelation inSeg refSamples 8
              ¬ surdLT envCorr.num envCorr.rad (threshold + 1 / 20) 1
            else true
          if mute then
            List.replicate (compareLen * 2) 0 ++ input.drop (compareLen * 2)
          else input

/-- The stride of the realtime sliding search (echo_suppression.go
line 271: compareLen/4 floored at 8). -/
def rtStrideOf (compareLen : Nat) : Nat :=
  if compareLen / 4 < 8 then 8 else compareLen / 4

/-- The input energy RemoveEchoRealtime computes over the compared
window. -/
def rtInEnergy (es : EchoSuppressor) (input : List Nat) : ℚ :=
  calculateEnergy ((bytesToSamples input).take (compareLenOf es input))

/-- The best sliding-window correlation RemoveEchoRealtime computes for an
input against the played-audio reference, as num / sqrt rad. -/
def rtMaxCorr (es : EchoSuppressor) (input : List Nat) : Surd :=
  realtimeBestCorr ((bytesToSamples input).take (compareLenOf es input))
    (bytesToSamples es.playedAudioBuf) (compareLenOf es input)
    (rtStrideOf (compareLenOf es input)) (rtInEnergy es input)

/-- The envelope-fallback correlation RemoveEchoRealtime computes, as
num / sqrt rad. -/
def rtEnvCorr (es : EchoSuppressor) (input : List Nat) : Surd :=
  maxEnvelopeCorrelation ((bytesToSamples input).take (compareLenOf es input))
    (bytesToSamples es.playedAudioBuf) 8

/-- A suppressor with recent playback of two known samples. -/
def c6Es : EchoSuppressor :=
  { newEchoSuppressor with playedAudioBuf := [1, 0, 1, 0],
                           lastTTSTime := some 0 }

/-!
### Managed stream (managed_stream.go)

Mutexes disappear (each method is a pure state transformer), context
cancellation functions are modelled by whether the handle is installed
(non-nil), channels by their queued contents, and provider calls by
outcome parameters.
-/

/-- The orchestrator-side data the managed stream reads
(orchestrator.go / types.go Config): the configured minimum words to
interrupt and whether the STT provider implements StreamingSTTProvider. -/
structure OrchModel where
  minWordsToInterrupt : Int
  sttStreaming : Bool
  deriving DecidableEq, Repr

/-- EventType from types.go. -/
inductive EventType
  | userSpeaking
  | userStopped
  | transcriptPartial
  | transcriptFinal
  | botThinking
  | botResponse
  | botSpeaking
  | interrupted
  | audioChunk
  | errorEvent
  deriving DecidableEq, Repr

/-- The data payload of an OrchestratorEvent (interface value in Go). -/
inductive EventData
  | empty
  | str (s : String)
  | bytes (b : List Nat)
  deriving DecidableEq, Repr

/-- OrchestratorEvent from types.go. -/
structure OrchestratorEvent where
  type : EventType
  sessionID : String
  data : EventData
  deriving DecidableEq, Repr

/-- Capacity of the events channel (managed_stream.go line 67). -/
def eventsCap : Nat := 1024

/-- ManagedStream state (managed_stream.go lines 12-52).  The events
channel is the queue of not-yet-consumed events; cancellation handles are
Booleans (installed / nil); time.Time fields are Option Int. -/
structure MS where
  ctxDone : Bool
  events : List OrchestratorEvent
  session : ConversationSession
  vad : Option RMSVAD
  audioBuf : List Nat
  pipelineCancel : Bool
  responseCancel : Bool
  ttsCancel : Bool
  sttChan : Bool
  sttGeneration : Int
  isSpeaking : Bool
  isThinking : Bool
  userInterrupting : Bool
  lastInterruptedAt : Option Int
  lastAudioSentAt : Option Int
  userSpeechEndTime : Option Int
  botSpeakStartTime : Option Int
  lastUserAudio : List Nat
  sttStartTime : Option Int
  sttEndTime : Option Int
  llmStartTime : Option Int
  llmEndTime : Option Int
  ttsStartTime : Option Int
  ttsFirstChunkTime : Option Int
  ttsEndTime : Option Int
  echoSuppressor : Option EchoSuppressor
  orch : Option OrchModel
  deriving DecidableEq, Repr

/-- ManagedStream.emit (managed_stream.go lines 822-861): drop everything
once the stream context is cancelled; drop AudioChunk unless speaking and
not user-interrupting; otherwise a non-blocking send that drops on a full
channel. -/
def MS.emit (ms : MS) (eventType : EventType) (data : EventData) : MS :=
  if ms.ctxDone then ms
  else if eventType = .audioChunk ∧ (¬ ms.isSpeaking ∨ ms.userInterrupting)
  then ms
  else if ms.events.length < eventsCap then
    { ms with events := ms.events ++ [⟨eventType, ms.session.id, data⟩] }
  else ms

/-- drainAudioChunks (managed_stream.go lines 924-956): removes AudioChunk
events, re-enqueuing the surviving control events in order.  The 100 ms
deadline only bounds the loop in wall-clock time; the model drains the
whole (bounded) queue. -/
def MS.drainAudioChunks (ms : MS) : MS :=
  { ms with events := ms.events.filter (fun e => e.type ≠ .audioChunk) }

/-- internalInterrupt (managed_stream.go lines 867-922).  Cancelling the
captured contexts, tts.Abort() and the logger are external effects with
no model state.  The source calls ms.echoSuppressor.ClearEchoBuffer()
without a nil check; streams built by NewManagedStream always own one. -/
def MS.internalInterrupt (ms : MS) (now : Int) : MS :=
  if ¬ ms.pipelineCancel ∧ ¬ ms.responseCancel ∧ ¬ ms.ttsCancel
      ∧ ¬ ms.isSpeaking ∧ ¬ ms.isThinking ∧ ¬ ms.userInterrupting then ms
  else
    let ms := { ms with
      pipelineCancel := false
      responseCancel := false
      ttsCancel := false
      sttChan := false
      sttGeneration := ms.sttGeneration + 1
      isSpeaking := false
      isThinking := false
      userInterrupting := false }
    let ms := { ms with
      echoSuppressor := ms.echoSuppressor.map EchoSuppressor.clearEchoBuffer }
    let ms := { ms with lastInterruptedAt := some now }
    let ms := ms.drainAudioChunks
    ms.emit .interrupted .empty

/-- ManagedStream.Interrupt (managed_stream.go lines 102-107): set
user_interrupting under the lock, then delegate to internalInterrupt. -/
def MS.interruptPublic (ms : MS) (now : Int) : MS :=
  MS.internalInterrupt { ms with userInterrupting := true } now

/-- strings.TrimSpace: drop leading and trailing whitespace.  Defined on
the character list so that it evaluates in the kernel; on the ASCII
transcripts of the claims this agrees with Go. -/
def goTrimSpace (s : String) : String :=
  ⟨((s.data.dropWhile Char.isWhitespace).reverse.dropWhile
      Char.isWhitespace).reverse⟩

/-- countWords (managed_stream.go lines 110-116): the number of
whitespace-separated fields after trimming. -/
def countWords (s : String) : Int :=
  if goTrimSpace s = "" then 0
  else (((goTrimSpace s).split Char.isWhitespace).filter
    (fun w => w ≠ "")).length

/-- LLM and TTS provider outcomes for one turn, supplied as parameters:
the result of llm.Complete, the chunk sequence tts.StreamSynthesize
delivers to its callback, and its final error (none on success). -/
structure TurnProviders where
  llm : Except String String
  ttsChunks : List (List Nat)
  ttsErr : Option String

/-- runLLMAndTTS (managed_stream.go lines 552-654), run sequentially: no
concurrent cancellation fires, so the rCtx.Err() and ttsCtx.Err() guards
observe nil. -/
def MS.runLLMAndTTS (ms : MS) (pv : TurnProviders) (now : Int) : MS :=
  let ms := { ms with responseCancel := true, isThinking := true }
  let ms := ms.emit .botThinking .empty
  let ms := { ms with llmStartTime := some now }
  match pv.llm with
  | .error e => ms.emit .errorEvent (.str ("LLM error: " ++ e))
  | .ok response =>
    let ms := { ms with llmEndTime := some now }
    let ms := { ms with session := ms.session.addMessage "assistant" response }
    let ms := ms.emit .botResponse (.str response)
    let ms := { ms with
      isThinking := false
      isSpeaking := true
      vad := ms.vad.map RMSVAD.reset
      ttsCancel := true }
    let ms := { ms with botSpeakStartTime := some now, ttsStartTime := some now }
    let ms := ms.emit .botSpeaking .empty
    let ms := pv.ttsChunks.foldl (fun acc chunk =>
        let acc := { acc with
          lastAudioSentAt := some now
          ttsFirstChunkTime := if acc.ttsFirstChunkTime = none then some now
                               else acc.ttsFirstChunkTime }
        let acc := { acc with
          echoSuppressor := acc.echoSuppressor.map
            (fun (es : EchoSuppressor) => es.recordPlayedAudio chunk now) }
        acc.emit .audioChunk (.bytes chunk)) ms
    let ms := { ms with
      ttsEndTime := if ms.ttsStartTime ≠ none then some now else ms.ttsEndTime }
    let ms := match pv.ttsErr with
      | some e => ms.emit .errorEvent (.str ("TTS error: " ++ e))
      | none => ms
    { ms with isSpeaking := false, ttsCancel := false }

/-- runBatchPipeline (managed_stream.go lines 494-550).  The outcome of
orch.Transcribe and the turn provider outcomes are parameters; the Bool
component reports whether the LLM stage was reached (runLLMAndTTS
invoked). -/
def MS.runBatchPipeline (ms : MS) (audioData : List Nat)
    (stt : Except String String) (pv : TurnProviders) (now : Int) :
    MS × Bool :=
  let ms := ms.internalInterrupt now
  let ms := { ms with
    pipelineCancel := true
    sttStartTime := some now
    lastUserAudio := audioData }
  let ms := ms.emit .botThinking .empty
  match stt with
  | .error e =>
    (ms.emit .errorEvent (.str ("transcription error: " ++ e)), false)
  | .ok transcript =>
    let ms := { ms with sttEndTime := some now }
    if transcript = "" then (ms, false)
    else
      let speaking := ms.isSpeaking
      let minWords := match ms.orch with
        | some o => o.minWordsToInterrupt
        | none => 0
      let proceed := fun (ms : MS) =>
        let ms := ms.emit .transcriptFinal (.str transcript)
        let ms := { ms with session := ms.session.addMessage "user" transcript }
        (ms.runLLMAndTTS pv now, true)
      if speaking ∧ ms.orch ≠ none ∧ minWords > 1 then
        if countWords transcript < minWords then (ms, false)
        else proceed (ms.internalInterrupt now)
      else proceed ms

/-- startStreamingSTT (managed_stream.go lines 399-492) as a state
transformer: the outcome of provider.StreamTranscribe is the parameter
(none = a channel was opened).  The transcript callback runs
asynchronously outside this model.  On success the pre-roll buffer is
flushed into the provider channel (returned as the second component) and
cleared. -/
def MS.startStreamingSTT (ms : MS) (sttStartErr : Option String)
    (now : Int) : MS × List (List Nat) :=
  match sttStartErr with
  | some e =>
    (ms.emit .errorEvent (.str ("failed to start streaming STT: " ++ e)), [])
  | none =>
    let ms := { ms with
      pipelineCancel := true
      sttChan := true
      sttStartTime := some now }
    if ms.audioBuf.length > 0 then
      let data := ms.audioBuf
      let ms := { ms with lastUserAudio := data, audioBuf := [] }
      (ms, [data])
    else (ms, [])

/-- Result of one ManagedStream.Write call: the new state, the returned
error, the chunks sent into the streaming-STT channel during the call,
and the audio captured for the deferred speech-end batch goroutine
(managed_stream.go lines 301-322), which runs after the 300 ms hold
outside Write. -/
structure WriteResult where
  ms : MS
  err : Option String
  sttForwarded : List (List Nat)
  scheduledBatch : Option (List Nat)
  deriving DecidableEq, Repr

/-- ManagedStream.Write (managed_stream.go lines 120-397).  rms is the
float64 value calculateRMS computes for the echo-cleaned chunk (the only
use vad.Process makes of the bytes); it is a parameter because the RMS is
a square root, and for the empty chunk the source computes exactly 0 (the
len == 0 case of calculateRMS).  The Go type assertions to *RMSVAD always
succeed here because the model's VAD is an RMSVAD. -/
def MS.write (ms : MS) (chunk : List Nat) (rms : ℚ) (now : Int)
    (sttStartErr : Option String) : WriteResult :=
  match ms.vad with
  | none => ⟨ms, some "VAD not configured for this stream", [], none⟩
  | some v =>
    -- dynamic VAD gating (echo guard); restored by the deferred block
    let originalThreshold := v.threshold
    let originalMinConfirmed := v.minConfirmed
    let speaking0 := ms.isSpeaking
    let recentlyPlayed250 := match ms.lastAudioSentAt with
      | none => false
      | some t => now - t < 250
    let v := if speaking0 then
               (if originalMinConfirmed < 3 then v.setMinConfirmed 3 else v)
             else if recentlyPlayed250 then
               (v.setAdaptiveMode false).setThreshold (1 / 4)
             else v
    -- realtime echo removal on the incoming chunk before VAD/STT
    let cleanedPair :=
      match ms.echoSuppressor with
      | none => (chunk, false)
      | some es =>
        let origEnergy := calculateEnergy (bytesToSamples chunk)
        let cleaned := es.removeEchoRealtime chunk now
        let cleanedEnergy := calculateEnergy (bytesToSamples cleaned)
        if cleanedEnergy < 1 / 100000000
            ∨ (origEnergy > 0 ∧ cleanedEnergy / origEnergy < 1 / 50) then
          (cleaned, true)
        else (cleaned, false)
    let chunk := cleanedPair.1
    let isLikelyEchoByEnergy := cleanedPair.2
    let pr := v.process rms now
    let event := pr.1
    let ms := { ms with vad := some pr.2 }
    -- VAD event handling
    let handled : MS × List (List Nat) × Option (List Nat) :=
      match event with
      | none => (ms, [], none)
      | some ev =>
        if ev.type = .silence then (ms, [], none)
        else if ev.type = .speechStart then
          let lead := ms.audioBuf
          let lead := if lead.length > 8820 then lead.drop (lead.length - 8820)
                      else lead
          let checkBuf := lead ++ chunk
          let isEchoStart := match ms.echoSuppressor with
            | some es => es.isEcho checkBuf now
            | none => false
          if isEchoStart then (ms, [], none)
          else
            let speaking := ms.isSpeaking
            let recent120 := match ms.lastAudioSentAt with
              | none => false
              | some t => now - t < 120
            if speaking ∧ recent120 then (ms, [], none)
            else if speaking then
              -- immediate barge-in while the assistant is speaking
              let ms := { ms with
                userInterrupting := true
                sttGeneration := ms.sttGeneration + 1
                pipelineCancel := false
                sttChan := false }
              let ms := ms.emit .userSpeaking .empty
              let ms := ms.internalInterrupt now
              match ms.orch with
              | some o =>
                if o.sttStreaming then
                  let st := ms.startStreamingSTT sttStartErr now
                  (st.1, st.2, none)
                else (ms, [], none)
              | none => (ms, [], none)
            else
              -- normal user turn start
              let ms := ms.emit .userSpeaking .empty
              let ms := { ms with
                sttStartTime := none
                sttEndTime := none
                llmStartTime := none
                llmEndTime := none
                ttsStartTime := none
                ttsFirstChunkTime := none
                ttsEndTime := none
                lastUserAudio := [] }
              let ms := ms.internalInterrupt now
              match ms.orch with
              | some o =>
                if o.sttStreaming then
                  let st := ms.startStreamingSTT sttStartErr now
                  (st.1, st.2, none)
                else (ms, [], none)
              | none => (ms, [], none)
        else
          -- speechEnd
          let ms := { ms with userSpeechEndTime := some now }
          let ms := ms.emit .userStopped .empty
          if ms.sttChan then ({ ms with sttChan := false }, [], none)
          else
            let audioData := ms.audioBuf
            let ms := { ms with audioBuf := [] }
            (ms, [], some audioData)
    let ms := handled.1
    let flush := handled.2.1
    let scheduled := handled.2.2
    -- echo check for STT forwarding and the pre-roll ring
    let isEcho2 := match ms.echoSuppressor with
      | none => false
      | some es =>
        let lead := ms.audioBuf
        let lead := if lead.length > 8820 then lead.drop (lead.length - 8820)
                    else lead
        es.isEcho (lead ++ chunk) now
    let isEcho : Bool := if isLikelyEchoByEnergy then true else isEcho2
    let forward : Bool := ms.sttChan && !isEcho
    let ms := if forward then
        { ms with lastUserAudio := ms.lastUserAudio ++ chunk }
      else ms
    let forwarded := if forward then flush ++ [chunk] else flush
    -- append to the pre-roll ring and trim (only when not echo)
    let isUserSpeaking : Bool := match ms.vad with
      | some rv => rv.isSpeaking
      | none => false
    let ms := if !isEcho then
        let buf := ms.audioBuf ++ chunk
        let buf := if isUserSpeaking = false ∧ buf.length > 176400 then
                     buf.drop (buf.length - 132300)
                   else buf
        { ms with audioBuf := buf }
      else ms
    -- deferred restore of the VAD gating (managed_stream.go lines 156-160)
    let ms := { ms with vad := ms.vad.map (fun rv =>
        ((rv.setThreshold originalThreshold).setMinConfirmed
          originalMinConfirmed).setAdaptiveMode true) }
    ⟨ms, none, forwarded, scheduled⟩

/-!
### Helper definitions for the verification
-/

/-- Observational core of an RMSVAD in non-adaptive mode: the fields
Process reads or writes when adaptiveMode is off, with adaptive mode off
on both sides. -/
def VadCoreEq (a b : RMSVAD) : Prop :=
  a.threshold = b.threshold ∧ a.silenceLimit = b.silenceLimit ∧
  a.minConfirmed = b.minConfirmed ∧ a.isSpeaking = b.isSpeaking ∧
  a.silenceStart = b.silenceStart ∧
  a.consecutiveFrames = b.consecutiveFrames ∧
  a.adaptiveMode = false ∧ b.adaptiveMode = false

/-- A concrete managed stream in the idle state, as NewManagedStream
leaves it (fresh session, fresh echo suppressor, batch STT provider),
with an explicitly configured RMSVAD. -/
def sampleStream : MS :=
  { ctxDone := false
    events := []
    session := newConversationSession "s1"
    vad := some (newRMSVAD (1 / 10) 700)
    audioBuf := []
    pipelineCancel := false
    responseCancel := false
    ttsCancel := false
    sttChan := false
    sttGeneration := 0
    isSpeaking := false
    isThinking := false
    userInterrupting := false
    lastInterruptedAt := none
    lastAudioSentAt := none
    userSpeechEndTime := none
    botSpeakStartTime := none
    lastUserAudio := []
    sttStartTime := none
    sttEndTime := none
    llmStartTime := none
    llmEndTime := none
    ttsStartTime := none
    ttsFirstChunkTime := none
    ttsEndTime := none
    echoSuppressor := some newEchoSuppressor
    orch := some { minWordsToInterrupt := 1, sttStreaming := false } }

/-- Turn-provider outcomes where the LLM answers and TTS streams
nothing. -/
def sampleProviders : TurnProviders :=
  { llm := .ok "resp", ttsChunks := [], ttsErr := none }

/-- An RMSVAD mid-stream: five consecutive loud frames already counted
and a raised noise floor, as left by NewRMSVAD after processing audio. -/
def c4Vad : RMSVAD :=
  { newRMSVAD (1 / 10) 700 with consecutiveFrames := 5, noiseFloor := 1 / 200 }

/-- The idle managed stream carrying the mid-stream VAD above. -/
def c4Stream : MS := { sampleStream with vad := some c4Vad }

/-- A VAD mid-speech whose silence timer started at t = 0 with a 700 ms
silence limit. -/
def c4SpeakVad : RMSVAD :=
  { threshold := 1 / 10, silenceLimit := 700, isSpeaking := true,
    silenceStart := some 0, adaptiveMode := false, noiseFloor := 0,
    alpha := 0, consecutiveFrames := 0, minConfirmed := 7, lastRMS := 0 }

/-- The idle managed stream carrying the mid-speech VAD and a nonempty
pre-roll ring buffer. -/
def c4SpeakStream : MS :=
  { sampleStream with vad := some c4SpeakVad, audioBuf := [1, 2] }

/-- The noise-floor maintenance rule as the spec states it for one chunk
in adaptive mode: set to rms when rms is below the floor, else EMA-update
(α) only when not speaking and rms < 2·threshold. -/
def specNoiseFloorUpdate (v : RMSVAD) (rms : ℚ) : ℚ :=
  if rms < v.noiseFloor then rms
  else if v.isSpeaking = false ∧ rms < v.threshold * 2 then
    (1 - v.alpha) * v.noiseFloor + v.alpha * rms
  else v.noiseFloor

/-- The effective threshold as the spec states it: max(configured
threshold, 2·noise_floor) capped at 0.3, taken after the noise-floor
maintenance of the same chunk. -/
def specEffectiveThreshold (v : RMSVAD) (rms : ℚ) : ℚ :=
  min (max v.threshold (specNoiseFloorUpdate v rms * 2)) (3 / 10)

/-- Message list used by the C9 witness. -/
def msgsW : List (String × String) :=
  [("user", "a"), ("assistant", "b"), ("user", "c")]

/-- A (role, content) pair as a Message. -/
def toMsg (p : String × String) : Message :=
  { role := p.1, content := p.2 }

/-- Fold a list of (role, content) pairs into a session via AddMessage. -/
def addMessages (s : ConversationSession)
    (msgs : List (String × String)) : ConversationSession :=
  msgs.foldl (fun a p => a.addMessage p.1 p.2) s

/-!
## Theorems

General lemmas about the embedded operations, then one theorem per
claim (with witnesses and counterexamples as required).
-/

theorem emit_session (ms : MS) (t : EventType) (d : EventData) :
    (ms.emit t d).session = ms.session := by
  unfold MS.emit
  split_ifs <;> rfl

theorem emit_flags (ms : MS) (t : EventType) (d : EventData) :
    (ms.emit t d).pipelineCancel = ms.pipelineCancel ∧
    (ms.emit t d).responseCancel = ms.responseCancel ∧
    (ms.emit t d).ttsCancel = ms.ttsCancel ∧
    (ms.emit t d).isSpeaking = ms.isSpeaking ∧
    (ms.emit t d).isThinking = ms.isThinking ∧
    (ms.emit t d).userInterrupting = ms.userInterrupting := by
  unfold MS.emit
  split_ifs <;> exact ⟨rfl, rfl, rfl, rfl, rfl, rfl⟩

theorem emit_events_cases (ms : MS) (t : EventType) (d : EventData) :
    (ms.emit t d).events = ms.events ∨
    (ms.emit t d).events = ms.events ++ [⟨t, ms.session.id, d⟩] := by
  unfold MS.emit
  split_ifs <;> simp

/-- If an AudioChunk emit is not dropped outright, the stream was speaking
with no user barge-in in progress. -/
theorem emit_audioChunk_drop (ms : MS) (d : EventData)
    (h : ms.isSpeaking = false ∨ ms.userInterrupting = true) :
    ms.emit .audioChunk d = ms := by
  unfold MS.emit
  by_cases hc : ms.ctxDone
  · simp [hc]
  · have hcond : (EventType.audioChunk = EventType.audioChunk ∧
        (¬ ms.isSpeaking ∨ ms.userInterrupting)) := by
      refine ⟨rfl, ?_⟩
      rcases h with h | h
      · exact Or.inl (by simp [h])
      · exact Or.inr (by simp [h])
    rw [if_neg hc, if_pos hcond]

/--
C1.  For every call to ManagedStream.emit with an AudioChunk event, the
event is delivered to the events channel only if at that moment
is_speaking is true and user_interrupting is false; under any other
combination of those two flags the AudioChunk is dropped and no event is
sent (the state, including the events channel, is untouched).
-/
theorem claim_C1_audio_chunk_gating (ms : MS) (d : EventData) :
    ((ms.emit .audioChunk d).events ≠ ms.events →
       ms.isSpeaking = true ∧ ms.userInterrupting = false) ∧
    (ms.isSpeaking = false ∨ ms.userInterrupting = true →
       ms.emit .audioChunk d = ms) := by
  constructor
  · intro hne
    by_contra hcon
    rw [Decidable.not_and_iff_or_not] at hcon
    have h : ms.isSpeaking = false ∨ ms.userInterrupting = true := by
      rcases hcon with h | h
      · exact Or.inl (by simpa using h)
      · exact Or.inr (by simpa using h)
    exact hne (by rw [emit_audioChunk_drop ms d h])
  · exact emit_audioChunk_drop ms d

/-- Witness for C1 at a concrete stream state: the sample stream is not
speaking, so an AudioChunk emit leaves it untouched. -/
theorem claim_C1_witness :
    sampleStream.emit .audioChunk (.bytes [1, 2]) = sampleStream :=
  (claim_C1_audio_chunk_gating sampleStream (.bytes [1, 2])).2
    (Or.inl (by decide))

theorem drain_flags (ms : MS) :
    (ms.drainAudioChunks).pipelineCancel = ms.pipelineCancel ∧
    (ms.drainAudioChunks).responseCancel = ms.responseCancel ∧
    (ms.drainAudioChunks).ttsCancel = ms.ttsCancel ∧
    (ms.drainAudioChunks).isSpeaking = ms.isSpeaking ∧
    (ms.drainAudioChunks).isThinking = ms.isThinking ∧
    (ms.drainAudioChunks).userInterrupting = ms.userInterrupting :=
  ⟨rfl, rfl, rfl, rfl, rfl, rfl⟩

/-- The idle early return of internalInterrupt. -/
theorem internalInterrupt_idle (ms : MS) (now : Int)
    (h : ¬ ms.pipelineCancel ∧ ¬ ms.responseCancel ∧ ¬ ms.ttsCancel
      ∧ ¬ ms.isSpeaking ∧ ¬ ms.isThinking ∧ ¬ ms.userInterrupting) :
    ms.internalInterrupt now = ms := by
  unfold MS.internalInterrupt
  rw [if_pos h]

/-- After a non-idle internalInterrupt, every activity indicator is
cleared. -/
theorem internalInterrupt_active_flags (ms : MS) (now : Int)
    (h : ¬ (¬ ms.pipelineCancel ∧ ¬ ms.responseCancel ∧ ¬ ms.ttsCancel
      ∧ ¬ ms.isSpeaking ∧ ¬ ms.isThinking ∧ ¬ ms.userInterrupting)) :
    (ms.internalInterrupt now).pipelineCancel = false ∧
    (ms.internalInterrupt now).responseCancel = false ∧
    (ms.internalInterrupt now).ttsCancel = false ∧
    (ms.internalInterrupt now).isSpeaking = false ∧
    (ms.internalInterrupt now).isThinking = false ∧
    (ms.internalInterrupt now).userInterrupting = false := by
  unfold MS.internalInterrupt
  rw [if_neg h]
  exact emit_flags _ .interrupted .empty

/--
C3 (amended).  internalInterrupt is idempotent: called twice back-to-back
(with no intervening activity) the second call finds nothing active and
is a no-op, so at most one Interrupted event is emitted.  The public
Interrupt() entry point does NOT have this property, because it sets
user_interrupting before delegating (see the counterexample).
-/
theorem claim_C3_internal_interrupt_idempotent (ms : MS) (t1 t2 : Int) :
    (ms.internalInterrupt t1).internalInterrupt t2 = ms.internalInterrupt t1 := by
  by_cases h : ¬ ms.pipelineCancel ∧ ¬ ms.responseCancel ∧ ¬ ms.ttsCancel
      ∧ ¬ ms.isSpeaking ∧ ¬ ms.isThinking ∧ ¬ ms.userInterrupting
  · rw [internalInterrupt_idle ms t1 h, internalInterrupt_idle ms t2 h]
  · obtain ⟨h1, h2, h3, h4, h5, h6⟩ := internalInterrupt_active_flags ms t1 h
    exact internalInterrupt_idle _ t2
      ⟨by simp [h1], by simp [h2], by simp [h3],
       by simp [h4], by simp [h5], by simp [h6]⟩

/-- Counterexample for C3 as stated: starting from a fully idle stream,
two back-to-back calls of the public Interrupt() emit two Interrupted
events, because each call sets user_interrupting before the idle check. -/
theorem claim_C3_counterexample :
    ¬ ((((sampleStream.interruptPublic 1).interruptPublic 2).events.filter
        (fun e => e.type = .interrupted)).length ≤ 1) ∧
    (((sampleStream.interruptPublic 1).interruptPublic 2).events.filter
        (fun e => e.type = .interrupted)).length = 2 := by
  decide

/-- The pairwise square sum ignores a trailing unpaired byte. -/
theorem sampleSquareSum_dropLast :
    ∀ (l : List Nat), l.length % 2 = 1 →
      sampleSquareSum l = sampleSquareSum l.dropLast
  | [], h => by simp at h
  | [_], _ => by simp [sampleSquareSum]
  | a :: b :: t, h => by
    have ht : t.length % 2 = 1 := by
      simp only [List.length_cons] at h
      omega
    have hne : t ≠ [] := by
      intro e
      rw [e] at ht
      simp at ht
    have ih := sampleSquareSum_dropLast t ht
    have hd : (a :: b :: t).dropLast = a :: b :: t.dropLast := by
      rcases t with _ | ⟨c, t⟩
      · exact absurd rfl hne
      · rfl
    rw [hd]
    simp only [sampleSquareSum]
    rw [ih]

/--
C8 (amended).  For every odd-length input chunk containing at least one
full sample (length ≥ 3), the radicand of calculateRMS — and hence the
RMS math.Sqrt of it, and the event Process emits — equals that of the
chunk truncated to the nearest even length.  For the excluded single-byte
chunk the source divides 0.0 by 0 and produces NaN, whereas the truncated
empty chunk yields RMS 0 (see the counterexample).
-/
theorem claim_C8_odd_chunk_truncation (chunk : List Nat)
    (hodd : chunk.length % 2 = 1) (h3 : 3 ≤ chunk.length) :
    calculateRMSSq chunk = calculateRMSSq chunk.dropLast := by
  have hne : chunk ≠ [] := by
    intro e
    rw [e] at h3
    simp at h3
  have hlen : chunk.dropLast.length = chunk.length - 1 :=
    List.length_dropLast _
  have hdne : chunk.dropLast ≠ [] := by
    intro e
    have := congrArg List.length e
    rw [hlen] at this
    simp at this
    omega
  unfold calculateRMSSq
  rw [if_neg hne, if_neg hdne]
  have h2 : ¬ chunk.length / 2 = 0 := by omega
  have h2' : ¬ chunk.dropLast.length / 2 = 0 := by
    rw [hlen]
    omega
  rw [if_neg h2, if_neg h2']
  rw [sampleSquareSum_dropLast chunk hodd, hlen]
  have hdiv : chunk.length / 2 = (chunk.length - 1) / 2 := by omega
  rw [hdiv]

/-- Counterexample for C8 as stated: on the single-byte chunk [0] the
source computes sqrt(0.0/0) = NaN (none), while the truncation to the
nearest even length is the empty chunk with RMS 0. -/
theorem claim_C8_counterexample :
    calculateRMSSq [0] = none ∧
    calculateRMSSq (List.dropLast [0]) = some 0 ∧
    calculateRMSSq [0] ≠ calculateRMSSq (List.dropLast [0]) := by
  decide

/-- Witness for C8 at the concrete chunk [1, 2, 3]. -/
theorem claim_C8_witness :
    (([1, 2, 3] : List Nat).length % 2 = 1 ∧ 3 ≤ ([1, 2, 3] : List Nat).length)
    ∧ calculateRMSSq [1, 2, 3] = calculateRMSSq (List.dropLast [1, 2, 3]) :=
  ⟨⟨by decide, by decide⟩,
   claim_C8_odd_chunk_truncation [1, 2, 3] (by decide) (by decide)⟩

/--
C10.  Conversation.SetVoiceByString succeeds exactly on F1-F5 / M1-M5 and
errors otherwise, leaving the session untouched on error and setting the
current voice to the argument on success; Conversation.SetLanguageByString
likewise succeeds exactly on en, es, fr, de, it, pt, ja, zh, leaving the
session untouched on error and setting the language on success.
-/
theorem claim_C10_setters (s : ConversationSession) (v l : String) :
    ((setVoiceByString s v).1 = none ↔ v ∈ validVoices) ∧
    ((setVoiceByString s v).1 ≠ none → (setVoiceByString s v).2 = s) ∧
    ((setVoiceByString s v).1 = none →
       (setVoiceByString s v).2.currentVoice = v) ∧
    ((setLanguageByString s l).1 = none ↔ l ∈ validLanguages) ∧
    ((setLanguageByString s l).1 ≠ none → (setLanguageByString s l).2 = s) ∧
    ((setLanguageByString s l).1 = none →
       (setLanguageByString s l).2.currentLanguage = l) := by
  unfold setVoiceByString setLanguageByString
  by_cases hv : v ∈ validVoices <;> by_cases hl : l ∈ validLanguages <;>
    simp [hv, hl]

/-- Witness for C10: a rejected voice and language leave the session
untouched; an accepted voice and language are installed. -/
theorem claim_C10_witness :
    (setVoiceByString (newConversationSession "u") "X9").2
        = newConversationSession "u" ∧
    (setLanguageByString (newConversationSession "u") "xx").2
        = newConversationSession "u" ∧
    (setVoiceByString (newConversationSession "u") "F3").2.currentVoice
        = "F3" ∧
    (setLanguageByString (newConversationSession "u") "fr").2.currentLanguage
        = "fr" :=
  ⟨(claim_C10_setters (newConversationSession "u") "X9" "xx").2.1 (by decide),
   (claim_C10_setters (newConversationSession "u") "X9" "xx").2.2.2.2.1
     (by decide),
   (claim_C10_setters (newConversationSession "u") "F3" "fr").2.2.1
     (by decide),
   (claim_C10_setters (newConversationSession "u") "F3" "fr").2.2.2.2.2
     (by decide)⟩

/-- One AddMessage keeps exactly the trailing window of capacity M. -/
theorem addMessage_context_window (s : ConversationSession) (r c : String)
    (M : Nat) (hM : 1 ≤ M) (hmax : s.maxMessages = (M : Int))
    (hlen : s.context.length ≤ M) :
    (s.addMessage r c).context
        = (s.context ++ [Message.mk r c]).drop ((s.context.length + 1) - M) ∧
    (s.addMessage r c).context.length ≤ M ∧
    (s.addMessage r c).maxMessages = (M : Int) := by
  unfold ConversationSession.addMessage
  simp only [hmax]
  by_cases hover : ((s.context ++ [Message.mk r c]).length : Int) > (M : Int)
  · have hlen1 : (s.context ++ [Message.mk r c]).length
        = s.context.length + 1 := by simp
    have hM' : s.context.length = M := by
      rw [hlen1] at hover
      have : s.context.length + 1 > M := by exact_mod_cast hover
      omega
    rw [if_pos hover]
    refine ⟨?_, ?_, by trivial⟩
    · congr 1
      rw [hlen1, hM']
      omega
    · simp only [List.length_drop, hlen1, hM']
      omega
  · rw [if_neg hover]
    have hle : s.context.length + 1 ≤ M := by
      have h1 : ¬ ((s.context.length + 1 : Int) > (M : Int)) := by
        simpa using hover
      omega
    refine ⟨?_, ?_, by trivial⟩
    · rw [Nat.sub_eq_zero_of_le hle, List.drop_zero]
    · simpa using hle

/-- Dropping inside the left part of an append commutes with the
append. -/
theorem drop_append_left {α : Type} (A B : List α) (k : Nat)
    (hk : k ≤ A.length) : A.drop k ++ B = (A ++ B).drop k := by
  rw [List.drop_append_eq_append_drop, Nat.sub_eq_zero_of_le hk,
    List.drop_zero]

/-- Folding AddMessage keeps the trailing window of capacity M. -/
theorem foldl_addMessage_context (M : Nat) (hM : 1 ≤ M) :
    ∀ (msgs : List (String × String)) (s : ConversationSession),
      s.maxMessages = (M : Int) → s.context.length ≤ M →
      (addMessages s msgs).context
        = (s.context ++ msgs.map toMsg).drop
            ((s.context.length + msgs.length) - M)
  | [], s, _, hlen => by
    simp [addMessages, Nat.sub_eq_zero_of_le hlen]
  | (r, c) :: rest, s, hmax, hlen => by
    obtain ⟨key1, hlen1, hmax1⟩ :=
      addMessage_context_window s r c M hM hmax hlen
    have ih := foldl_addMessage_context M hM rest (s.addMessage r c) hmax1 hlen1
    simp only [addMessages, List.foldl_cons] at ih ⊢
    rw [ih, key1]
    have hk : (s.context.length + 1) - M
        ≤ (s.context ++ [Message.mk r c]).length := by
      simp only [List.length_append, List.length_singleton]
      omega
    have hshift : (s.context ++ [Message.mk r c]).drop
          ((s.context.length + 1) - M) ++ rest.map toMsg
        = ((s.context ++ [Message.mk r c]) ++ rest.map toMsg).drop
            ((s.context.length + 1) - M) :=
      drop_append_left _ _ _ hk
    rw [hshift, List.drop_drop]
    have hassoc : (s.context ++ [Message.mk r c]) ++ rest.map toMsg
        = s.context ++ ((r, c) :: rest).map toMsg := by
      simp [toMsg]
    rw [hassoc]
    congr 1
    simp only [List.length_drop, List.length_append, List.length_singleton,
      List.length_cons, List.length_nil]
    omega
  termination_by msgs => msgs.length

/--
C9.  For a fresh ConversationSession with capacity max_context = M ≥ 1,
after N AddMessage calls GetContextCopy returns exactly those N messages
in insertion order when N ≤ M, and exactly the last M messages in order
when N > M.
-/
theorem claim_C9_context_window (uid : String) (M : Nat) (hM : 1 ≤ M)
    (msgs : List (String × String)) :
    ((msgs.length ≤ M →
       ConversationSession.getContextCopy (addMessages
           { newConversationSession uid with maxMessages := (M : Int) } msgs)
         = msgs.map toMsg) ∧
     (M < msgs.length →
       ConversationSession.getContextCopy (addMessages
           { newConversationSession uid with maxMessages := (M : Int) } msgs)
         = (msgs.map toMsg).drop (msgs.length - M))) := by
  have key := foldl_addMessage_context M hM msgs
    { newConversationSession uid with maxMessages := (M : Int) }
    (by rfl) (by simp [newConversationSession])
  have hgc : ∀ t : ConversationSession,
      ConversationSession.getContextCopy t = t.context := fun _ => rfl
  simp only [newConversationSession, List.nil_append, List.length_nil,
    Nat.zero_add] at key
  simp only [hgc, newConversationSession]
  constructor
  · intro h
    rw [key, Nat.sub_eq_zero_of_le h, List.drop_zero]
  · intro _
    rw [key]

/-- Witness for C9: capacity 2, three messages, the last two remain. -/
theorem claim_C9_witness :
    ConversationSession.getContextCopy (addMessages
        { newConversationSession "u" with maxMessages := (2 : Int) } msgsW)
      = (msgsW.map toMsg).drop (msgsW.length - 2) :=
  (claim_C9_context_window "u" 2 (by decide) msgsW).2 (by decide)

theorem if_gt_eq_max (a b : ℚ) : (if b > a then b else a) = max a b := by
  rcases le_or_lt b a with h | h
  · rw [if_neg (not_lt.2 h), max_eq_left h]
  · rw [if_pos h, max_eq_right (le_of_lt h)]

theorem if_gt_eq_min (a c : ℚ) : (if a > c then c else a) = min a c := by
  rcases le_or_lt a c with h | h
  · rw [if_neg (not_lt.2 h), min_eq_left h]
  · rw [if_pos h, min_eq_right (le_of_lt h)]

set_option maxHeartbeats 1600000 in
/--
C5.  In adaptive mode, RMSVAD.Process emits SpeechStart exactly when the
VAD is not speaking and at least min_confirmed consecutive chunks
(counted by consecutive_frames, which this chunk increments) have had RMS
strictly above the effective threshold; the effective threshold of a
chunk is max(configured threshold, 2·noise_floor) capped at 0.3, where
the noise floor has first been set to rms when rms < noise_floor and
otherwise EMA-updated with α only when not speaking and
rms < 2·threshold.
-/
theorem claim_C5_adaptive_speech_start (v : RMSVAD) (rms : ℚ) (now : Int)
    (hA : v.adaptiveMode = true) :
    ((v.process rms now).1 = some ⟨.speechStart, now⟩ ↔
       v.isSpeaking = false ∧ specEffectiveThreshold v rms < rms ∧
         v.minConfirmed ≤ v.consecutiveFrames + 1) ∧
    (v.process rms now).2.noiseFloor = specNoiseFloorUpdate v rms ∧
    (v.process rms now).2.consecutiveFrames =
      (if specEffectiveThreshold v rms < rms then v.consecutiveFrames + 1
       else 0) := by
  simp only [RMSVAD.process, specEffectiveThreshold, specNoiseFloorUpdate,
    hA, if_true, Bool.not_eq_true, gt_iff_lt]
  rw [show ∀ a b : ℚ, (if a < b then b else a) = max a b from
    fun a b => if_gt_eq_max a b,
    show ∀ a : ℚ, (if 3 / 10 < a then 3 / 10 else a) = min a (3 / 10) from
    fun a => if_gt_eq_min a (3 / 10)]
  split_ifs <;> simp_all <;> try (split <;> simp_all) <;> try (split <;> simp_all)

/-- Witness for C5 at a concrete adaptive VAD and rms value. -/
theorem claim_C5_witness :
    ((newRMSVAD (1 / 100) 500).process (1 / 4) 5).2.noiseFloor
      = specNoiseFloorUpdate (newRMSVAD (1 / 100) 500) (1 / 4) :=
  (claim_C5_adaptive_speech_start (newRMSVAD (1 / 100) 500) (1 / 4) 5
    (by decide)).2.1

set_option maxHeartbeats 1600000 in
/-- With adaptive mode off, Process reads and writes only the VadCoreEq
fields (plus lastRMS, which it overwrites), so core-equal states emit the
same event and stay core-equal. -/
theorem process_core_eq (a b : RMSVAD) (h : VadCoreEq a b) (rms : ℚ)
    (now : Int) :
    (a.process rms now).1 = (b.process rms now).1 ∧
    VadCoreEq (a.process rms now).2 (b.process rms now).2 := by
  obtain ⟨h1, h2, h3, h4, h5, h6, ha, hb⟩ := h
  by_cases c1 : b.threshold < rms
  · by_cases c2 : b.isSpeaking = true
    · simp [RMSVAD.process, VadCoreEq, ha, hb, h1, h2, h3, h4, h5, h6, c1, c2]
    · by_cases c3 : b.minConfirmed ≤ b.consecutiveFrames + 1
      · simp [RMSVAD.process, VadCoreEq, ha, hb, h1, h2, h3, h4, h5, h6,
          c1, c2, c3]
      · simp [RMSVAD.process, VadCoreEq, ha, hb, h1, h2, h3, h4, h5, h6,
          c1, c2, c3]
  · by_cases c2 : b.isSpeaking = true
    · rcases hss : b.silenceStart with _ | s
      · by_cases c5 : b.silenceLimit ≤ (0 : Int)
        · simp [RMSVAD.process, VadCoreEq, ha, hb, h1, h2, h3, h4, h5, h6,
            c1, c2, hss, c5]
        · simp [RMSVAD.process, VadCoreEq, ha, hb, h1, h2, h3, h4, h5, h6,
            c1, c2, hss, c5]
      · by_cases c5 : b.silenceLimit ≤ now - s
        · simp [RMSVAD.process, VadCoreEq, ha, hb, h1, h2, h3, h4, h5, h6,
            c1, c2, hss, c5]
        · simp [RMSVAD.process, VadCoreEq, ha, hb, h1, h2, h3, h4, h5, h6,
            c1, c2, hss, c5]
    · simp [RMSVAD.process, VadCoreEq, ha, hb, h1, h2, h3, h4, h5, h6, c1, c2]

/-- Clone of a non-adaptive VAD is core-equal to the Reset source. -/
theorem clone_reset_core (v : RMSVAD) (hA : v.adaptiveMode = false) :
    VadCoreEq v.clone v.reset := by
  simp [VadCoreEq, RMSVAD.clone, RMSVAD.reset, hA]

/--
C7 (amended).  Clone copies only the threshold, silence limit and
min_confirmed settings; the adaptive-mode flag, noise floor and EMA α are
left at their Go zero values rather than copied, and no runtime state is
carried (not speaking, zero consecutive frames, no silence timer).  For
every source with adaptive mode off, the clone yields exactly the same
event sequence as the Reset source on every input sequence; an adaptive
source can diverge from its clone — the NewRMSVAD default does so on the
first chunk (see the counterexample).
-/
theorem claim_C7_clone_run (v : RMSVAD) (hA : v.adaptiveMode = false)
    (inputs : List (ℚ × Int)) :
    v.clone.threshold = v.threshold ∧
    v.clone.silenceLimit = v.silenceLimit ∧
    v.clone.minConfirmed = v.minConfirmed ∧
    v.clone.adaptiveMode = false ∧ v.clone.noiseFloor = 0 ∧
    v.clone.alpha = 0 ∧ v.clone.isSpeaking = false ∧
    v.clone.consecutiveFrames = 0 ∧ v.clone.silenceStart = none ∧
    RMSVAD.run v.clone inputs = RMSVAD.run v.reset inputs := by
  refine ⟨rfl, rfl, rfl, rfl, rfl, rfl, rfl, rfl, rfl, ?_⟩
  suffices h : ∀ (ins : List (ℚ × Int)) (a b : RMSVAD), VadCoreEq a b →
      RMSVAD.run a ins = RMSVAD.run b ins from
    h inputs _ _ (clone_reset_core v hA)
  intro ins
  induction ins with
  | nil => intro a b _; rfl
  | cons p rest ih =>
    intro a b h
    rcases p with ⟨rms, now⟩
    obtain ⟨hev, hcore⟩ := process_core_eq a b h rms now
    rcases hpa : a.process rms now with ⟨ev1, a1⟩
    rcases hpb : b.process rms now with ⟨ev2, b1⟩
    rw [hpa, hpb] at hev hcore
    simp only at hev hcore
    simp only [RMSVAD.run, hpa, hpb]
    rw [hev]
    exact congrArg _ (ih a1 b1 hcore)

/-- Counterexample for C7 as stated: for a freshly constructed (adaptive)
RMSVAD with threshold 0, the clone and the Reset source already disagree
on the first chunk — the adaptive source raises its effective threshold
to twice the noise floor and reports Silence, while the clone (which lost
the adaptive settings) counts the chunk as above threshold and returns
nothing. -/
theorem claim_C7_counterexample :
    RMSVAD.run (RMSVAD.clone (newRMSVAD 0 100)) [(1 / 1000, 7)]
      ≠ RMSVAD.run (RMSVAD.reset (newRMSVAD 0 100)) [(1 / 1000, 7)] ∧
    RMSVAD.run (RMSVAD.clone (newRMSVAD 0 100)) [(1 / 1000, 7)] = [none] ∧
    RMSVAD.run (RMSVAD.reset (newRMSVAD 0 100)) [(1 / 1000, 7)]
      = [some ⟨.silence, 7⟩] := by
  refine ⟨?_, ?_, ?_⟩
  · norm_num [RMSVAD.run, RMSVAD.process, RMSVAD.clone, RMSVAD.reset,
      newRMSVAD]
    simp
  · norm_num [RMSVAD.run, RMSVAD.process, RMSVAD.clone, newRMSVAD]
  · norm_num [RMSVAD.run, RMSVAD.process, RMSVAD.reset, newRMSVAD]

/-- Witness for C7 on a concrete non-adaptive source and input
sequence. -/
theorem claim_C7_witness :
    RMSVAD.run
        (RMSVAD.clone (RMSVAD.setAdaptiveMode (newRMSVAD (1 / 10) 100) false))
        [(1 / 4, 3), (0, 9)]
      = RMSVAD.run
        (RMSVAD.reset (RMSVAD.setAdaptiveMode (newRMSVAD (1 / 10) 100) false))
        [(1 / 4, 3), (0, 9)] :=
  (claim_C7_clone_run (RMSVAD.setAdaptiveMode (newRMSVAD (1 / 10) 100) false)
    (by decide) [(1 / 4, 3), (0, 9)]).2.2.2.2.2.2.2.2.2

theorem emit_filter_tf (ms : MS) (t : EventType) (d : EventData)
    (h : t ≠ EventType.transcriptFinal) :
    (ms.emit t d).events.filter (fun e => e.type = EventType.transcriptFinal)
      = ms.events.filter (fun e => e.type = EventType.transcriptFinal) := by
  rcases emit_events_cases ms t d with h1 | h1 <;> rw [h1]
  simp [List.filter_append, h]

theorem internalInterrupt_session (ms : MS) (now : Int) :
    (ms.internalInterrupt now).session = ms.session := by
  unfold MS.internalInterrupt
  split_ifs
  · rfl
  · rw [emit_session]
    rfl

theorem filter_tf_of_filter_not_audio (l : List OrchestratorEvent) :
    (l.filter (fun e => e.type ≠ EventType.audioChunk)).filter
        (fun e => e.type = EventType.transcriptFinal)
      = l.filter (fun e => e.type = EventType.transcriptFinal) := by
  induction l with
  | nil => rfl
  | cons x xs ih =>
    by_cases hax : x.type = EventType.audioChunk
    · have h1 : (decide (x.type ≠ EventType.audioChunk)) = false := by
        simp [hax]
      have h2 : (decide (x.type = EventType.transcriptFinal)) = false := by
        simp [hax]
      rw [List.filter_cons, h1, if_neg Bool.false_ne_true,
        List.filter_cons, h2, if_neg Bool.false_ne_true, ih]
    · have h1 : (decide (x.type ≠ EventType.audioChunk)) = true := by
        simp [hax]
      rw [List.filter_cons, h1, if_pos rfl, List.filter_cons]
      by_cases hx : x.type = EventType.transcriptFinal
      · have h2 : (decide (x.type = EventType.transcriptFinal)) = true := by
          simp [hx]
        rw [h2, if_pos rfl, List.filter_cons, h2, if_pos rfl, ih]
      · have h2 : (decide (x.type = EventType.transcriptFinal)) = false := by
          simp [hx]
        rw [h2, if_neg Bool.false_ne_true, List.filter_cons, h2,
          if_neg Bool.false_ne_true, ih]

theorem internalInterrupt_filter_tf (ms : MS) (now : Int) :
    (ms.internalInterrupt now).events.filter
        (fun e => e.type = EventType.transcriptFinal)
      = ms.events.filter (fun e => e.type = EventType.transcriptFinal) := by
  unfold MS.internalInterrupt
  split_ifs
  · rfl
  · rw [emit_filter_tf _ _ _ (by decide)]
    exact filter_tf_of_filter_not_audio ms.events

/--
C2 (amended).  When the batch pipeline receives a transcript that is
exactly the empty string, it returns with no further action: no
TranscriptFinal event is emitted, no user message is appended to the
session, and the LLM stage is not invoked.  (A whitespace-only transcript
is not trimmed by the source and proceeds as a normal transcript; see the
counterexample.)
-/
theorem claim_C2_empty_transcript (ms : MS) (audio : List Nat)
    (pv : TurnProviders) (now : Int) :
    (ms.runBatchPipeline audio (Except.ok "") pv now).2 = false ∧
    (ms.runBatchPipeline audio (Except.ok "") pv now).1.session
      = ms.session ∧
    (ms.runBatchPipeline audio (Except.ok "") pv now).1.events.filter
        (fun e => e.type = EventType.transcriptFinal)
      = ms.events.filter (fun e => e.type = EventType.transcriptFinal) := by
  unfold MS.runBatchPipeline
  simp only [if_pos rfl]
  refine ⟨rfl, ?_, ?_⟩
  · show (MS.emit _ .botThinking .empty).session = ms.session
    rw [emit_session]
    exact internalInterrupt_session ms now
  · show (MS.emit _ .botThinking .empty).events.filter
        (fun e => e.type = EventType.transcriptFinal)
      = ms.events.filter (fun e => e.type = EventType.transcriptFinal)
    rw [emit_filter_tf _ _ _ (by decide)]
    exact internalInterrupt_filter_tf ms now

/-- Counterexample for C2 as stated: a whitespace-only transcript trims
to empty, yet the batch pipeline emits TranscriptFinal, appends the user
message and invokes the LLM. -/
theorem claim_C2_counterexample :
    goTrimSpace " " = "" ∧
    (sampleStream.runBatchPipeline [] (Except.ok " ") sampleProviders 9).2
      = true ∧
    (((sampleStream.runBatchPipeline [] (Except.ok " ") sampleProviders
        9).1.events.filter
        (fun e => e.type = EventType.transcriptFinal)).length = 1) ∧
    ((sampleStream.runBatchPipeline [] (Except.ok " ") sampleProviders
        9).1.session.lastUser = " ") := by
  decide

theorem bytesToSamples_length :
    ∀ (l : List Nat), (bytesToSamples l).length = l.length / 2
  | [] => rfl
  | [_] => by simp [bytesToSamples]
  | _ :: _ :: t => by
    simp only [bytesToSamples, List.length_cons]
    rw [bytesToSamples_length t]
    omega

theorem foldl_add_sq_le (l : List ℚ) (a : ℚ) :
    a ≤ l.foldl (fun acc s => acc + s * s) a := by
  induction l generalizing a with
  | nil => exact le_refl a
  | cons x xs ih =>
    simp only [List.foldl_cons]
    exact le_trans (le_add_of_nonneg_right (mul_self_nonneg x)) (ih (a + x * x))

theorem calculateEnergy_nonneg (s : List ℚ) : 0 ≤ calculateEnergy s := by
  unfold calculateEnergy
  exact foldl_add_sq_le s 0

theorem foldl_preserve {α β : Type} (P : β → Prop) (f : β → α → β)
    (l : List α) (init : β) (h0 : P init)
    (hstep : ∀ b a, P b → P (f b a)) : P (l.foldl f init) := by
  induction l generalizing init with
  | nil => exact h0
  | cons x xs ih => exact ih (f init x) (hstep init x h0)

/-- The running best of the realtime sliding search always carries a
positive radicand when the input-segment energy is positive. -/
theorem realtimeBestCorr_rad_pos (inSeg refSamples : List ℚ)
    (compareLen stride : Nat) (inEnergy : ℚ) (h : 0 < inEnergy) :
    0 < (realtimeBestCorr inSeg refSamples compareLen stride inEnergy).rad := by
  simp only [realtimeBestCorr]
  refine foldl_preserve (fun acc : Surd × Bool => 0 < acc.1.rad) _ _ _
    (by norm_num) ?_
  intro b p hb
  dsimp only
  split_ifs with h1 h2 h3
  · exact hb
  · exact hb
  · exact mul_pos h (lt_of_le_of_ne (calculateEnergy_nonneg _) (Ne.symm h2))
  · exact hb

/-- The envelope-fallback correlation always carries a positive
radicand. -/
theorem maxEnvelopeCorrelation_rad_pos (a b : List ℚ) (d : Nat) :
    0 < (maxEnvelopeCorrelation a b d).rad := by
  simp only [maxEnvelopeCorrelation]
  split_ifs with h1 h2 h3 h4 <;>
    first
      | exact one_pos
      | (refine foldl_preserve (fun s : Surd => 0 < s.rad) _ _ _
           (by norm_num) ?_
         intro s p hs
         dsimp only
         split_ifs with hv hlt
         · exact mul_pos (not_le.1 h3) hv
         · exact hs
         · exact hs)

theorem compareLenOf_def (es : EchoSuppressor) (input : List Nat) :
    min (bytesToSamples input).length (bytesToSamples es.playedAudioBuf).length
      = compareLenOf es input := rfl

theorem rtInEnergy_def (es : EchoSuppressor) (input : List Nat) :
    calculateEnergy ((bytesToSamples input).take (compareLenOf es input))
      = rtInEnergy es input := rfl

theorem rtStrideOf_def (cl : Nat) :
    (if cl / 4 < 8 then 8 else cl / 4) = rtStrideOf cl := rfl

theorem rtMaxCorr_def (es : EchoSuppressor) (input : List Nat) :
    realtimeBestCorr ((bytesToSamples input).take (compareLenOf es input))
      (bytesToSamples es.playedAudioBuf) (compareLenOf es input)
      (rtStrideOf (compareLenOf es input)) (rtInEnergy es input)
      = rtMaxCorr es input := rfl

theorem rtEnvCorr_def (es : EchoSuppressor) (input : List Nat) :
    maxEnvelopeCorrelation ((bytesToSamples input).take (compareLenOf es input))
      (bytesToSamples es.playedAudioBuf) 8 = rtEnvCorr es input := rfl

/--
C6 (amended).  RemoveEchoRealtime always returns a chunk of the same
length as the input, and that chunk is either an unchanged copy of the
input (no echo detected, or one of the guard early-returns fires) or the
input with the compared segment — the first min(|input|, |reference|)
samples — zeroed and any remainder beyond it copied unchanged.  The
claimed all-zero output therefore occurs exactly when the input is no
longer than the recorded reference; for a longer input the tail survives
(see the counterexample).  Moreover, when the suppressor is enabled with
non-stale playback, both sample lists are nonempty and the compared
window carries nonzero energy, the mute branch is taken precisely when
the best sliding-window correlation (as the real number num / sqrt rad)
is at least the threshold — not only strictly above — or the envelope
fallback is at least threshold + 0.05; under the complementary strict
inequalities the input is returned unchanged.
-/
theorem claim_C6_realtime_gate (es : EchoSuppressor) (input : List Nat)
    (now : Int) :
    (es.removeEchoRealtime input now).length = input.length ∧
    (es.removeEchoRealtime input now = input ∨
      es.removeEchoRealtime input now
        = List.replicate (compareLenOf es input * 2) 0
            ++ input.drop (compareLenOf es input * 2)) ∧
    (es.enabled = true → es.stalePlayback now = false → input ≠ [] →
     es.playedAudioBuf ≠ [] → bytesToSamples input ≠ [] →
     bytesToSamples es.playedAudioBuf ≠ [] → rtInEnergy es input ≠ 0 →
     (((es.echoThreshold : ℝ)
           ≤ ((rtMaxCorr es input).num : ℝ)
               / Real.sqrt ((rtMaxCorr es input).rad : ℝ) ∨
       (es.echoThreshold : ℝ) + 1 / 20
           ≤ ((rtEnvCorr es input).num : ℝ)
               / Real.sqrt ((rtEnvCorr es input).rad : ℝ)) →
         es.removeEchoRealtime input now
           = List.replicate (compareLenOf es input * 2) 0
               ++ input.drop (compareLenOf es input * 2)) ∧
     ((((rtMaxCorr es input).num : ℝ)
           / Real.sqrt ((rtMaxCorr es input).rad : ℝ)
             < (es.echoThreshold : ℝ) ∧
       ((rtEnvCorr es input).num : ℝ)
           / Real.sqrt ((rtEnvCorr es input).rad : ℝ)
             < (es.echoThreshold : ℝ) + 1 / 20) →
         es.removeEchoRealtime input now = input)) := by
  have hcl : compareLenOf es input * 2 ≤ input.length := by
    unfold compareLenOf
    have h1 := bytesToSamples_length input
    have h2 : min (bytesToSamples input).length
          (bytesToSamples es.playedAudioBuf).length
        ≤ (bytesToSamples input).length := min_le_left _ _
    omega
  have hAB : (es.removeEchoRealtime input now).length = input.length ∧
      (es.removeEchoRealtime input now = input ∨
        es.removeEchoRealtime input now
          = List.replicate (compareLenOf es input * 2) 0
              ++ input.drop (compareLenOf es input * 2)) := by
    unfold compareLenOf at hcl ⊢
    simp only [EchoSuppressor.removeEchoRealtime]
    split_ifs <;>
      first
        | exact ⟨rfl, Or.inl rfl⟩
        | (refine ⟨?_, Or.inr rfl⟩
           rw [List.length_append, List.length_replicate, List.length_drop]
           omega)
  refine ⟨hAB.1, hAB.2, ?_⟩
  intro hen hst hin href hinS hrefS hE
  have hE2 : 0 < rtInEnergy es input :=
    lt_of_le_of_ne (by unfold rtInEnergy; exact calculateEnergy_nonneg _)
      (Ne.symm hE)
  have hrad1 : 0 < (rtMaxCorr es input).rad := by
    unfold rtMaxCorr
    exact realtimeBestCorr_rad_pos _ _ _ _ _ hE2
  have hrad2 : 0 < (rtEnvCorr es input).rad := by
    unfold rtEnvCorr
    exact maxEnvelopeCorrelation_rad_pos _ _ _
  have hiffA : surdLT (rtMaxCorr es input).num (rtMaxCorr es input).rad
        es.echoThreshold 1 = true
      ↔ ((rtMaxCorr es input).num : ℝ)
          / Real.sqrt ((rtMaxCorr es input).rad : ℝ)
        < (es.echoThreshold : ℝ) := by
    rw [surdLT_iff _ _ _ _ hrad1 one_pos]
    norm_num
  have hiffB : surdLT (rtEnvCorr es input).num (rtEnvCorr es input).rad
        (es.echoThreshold + 1 / 20) 1 = true
      ↔ ((rtEnvCorr es input).num : ℝ)
          / Real.sqrt ((rtEnvCorr es input).rad : ℝ)
        < (es.echoThreshold : ℝ) + 1 / 20 := by
    rw [surdLT_iff _ _ _ _ hrad2 one_pos]
    push_cast
    norm_num
  have hguards : es.removeEchoRealtime input now
      = if (if surdLT (rtMaxCorr es input).num (rtMaxCorr es input).rad
               es.echoThreshold 1 then
              ¬ surdLT (rtEnvCorr es input).num (rtEnvCorr es input).rad
                 (es.echoThreshold + 1 / 20) 1
            else true) then
          List.replicate (compareLenOf es input * 2) 0
            ++ input.drop (compareLenOf es input * 2)
        else input := by
    simp only [EchoSuppressor.removeEchoRealtime]
    simp only [compareLenOf_def, rtInEnergy_def, rtStrideOf_def,
      rtMaxCorr_def, rtEnvCorr_def]
    rw [if_neg (by simp [hen, hin]), if_neg (by simp [hst]), if_neg href,
        if_neg (by simp [hinS, hrefS]), if_neg hE]
  constructor
  · intro htrig
    rw [hguards]
    by_cases hA : surdLT (rtMaxCorr es input).num (rtMaxCorr es input).rad
        es.echoThreshold 1 = true
    · rcases htrig with h | h
      · exact absurd (hiffA.mp hA) (not_lt.2 h)
      · have henv : ¬ surdLT (rtEnvCorr es input).num
            (rtEnvCorr es input).rad (es.echoThreshold + 1 / 20) 1 = true := by
          rw [hiffB]
          exact not_lt.2 h
        have hmute : (if surdLT (rtMaxCorr es input).num
              (rtMaxCorr es input).rad es.echoThreshold 1 = true then
              ¬ surdLT (rtEnvCorr es input).num (rtEnvCorr es input).rad
                 (es.echoThreshold + 1 / 20) 1 = true
            else (true = true)) := by
          rw [if_pos hA]
          exact henv
        rw [if_pos hmute]
    · have hmute : (if surdLT (rtMaxCorr es input).num
            (rtMaxCorr es input).rad es.echoThreshold 1 = true then
            ¬ surdLT (rtEnvCorr es input).num (rtEnvCorr es input).rad
               (es.echoThreshold + 1 / 20) 1 = true
          else (true = true)) := by
        rw [if_neg hA]
      rw [if_pos hmute]
  · intro hno
    rw [hguards]
    have hA := hiffA.mpr hno.1
    have hB := hiffB.mpr hno.2
    have hmute : ¬ (if surdLT (rtMaxCorr es input).num
          (rtMaxCorr es input).rad es.echoThreshold 1 = true then
          ¬ surdLT (rtEnvCorr es input).num (rtEnvCorr es input).rad
             (es.echoThreshold + 1 / 20) 1 = true
        else (true = true)) := by
      intro hC
      rw [if_pos hA] at hC
      exact hC hB
    rw [if_neg hmute]

/-- Counterexample for C6 as stated: reference of one sample, bit-equal
input of two samples.  The best correlation is exactly 1 (above the
default threshold 0.55), yet the returned chunk zeroes only the compared
first sample and copies the second unchanged: it is neither a zero-valued
chunk of the input's length nor an unchanged copy. -/
theorem claim_C6_counterexample :
    EchoSuppressor.removeEchoRealtime
        { newEchoSuppressor with playedAudioBuf := [1, 0],
                                 lastTTSTime := some 0 }
        [1, 0, 1, 0] 0 = [0, 0, 1, 0] ∧
    ([0, 0, 1, 0] : List Nat) ≠ List.replicate 4 0 ∧
    ([0, 0, 1, 0] : List Nat) ≠ [1, 0, 1, 0] := by
  refine ⟨?_, by decide, by decide⟩
  norm_num [EchoSuppressor.removeEchoRealtime, EchoSuppressor.stalePlayback,
    newEchoSuppressor, bytesToSamples, sampleOfBytes, calculateEnergy,
    realtimeBestCorr, surdLT, dotProd, List.range_succ]
  decide

/-- Witness for the C6 trigger characterisation on an enabled suppressor
with recent playback: the single compared sample correlates exactly 1,
which is at least the default threshold 0.55, so the mute branch
fires. -/
theorem claim_C6_witness :
    c6Es.removeEchoRealtime [1, 0] 0
      = List.replicate (compareLenOf c6Es [1, 0] * 2) 0
          ++ ([1, 0] : List Nat).drop (compareLenOf c6Es [1, 0] * 2) := by
  have hmc : rtMaxCorr c6Es [1, 0]
      = ⟨1 / 1073741824, 1 / 1152921504606846976⟩ := by
    norm_num [rtMaxCorr, rtInEnergy, rtStrideOf, compareLenOf, c6Es,
      newEchoSuppressor, bytesToSamples, sampleOfBytes, realtimeBestCorr,
      calculateEnergy, dotProd, surdLT, List.range_succ]
  have hsq : Real.sqrt ((1 / 1152921504606846976 : ℚ) : ℝ)
      = 1 / 1073741824 := by
    rw [show ((1 / 1152921504606846976 : ℚ) : ℝ)
        = (1 / 1073741824 : ℝ) ^ 2 by norm_num]
    exact Real.sqrt_sq (by norm_num)
  refine ((claim_C6_realtime_gate c6Es [1, 0] 0).2.2 rfl (by decide)
      (by decide) (by decide)
      (by simp [bytesToSamples])
      (by simp [c6Es, newEchoSuppressor, bytesToSamples])
      (by norm_num [rtInEnergy, compareLenOf, c6Es, newEchoSuppressor,
        bytesToSamples, sampleOfBytes, calculateEnergy])).1 ?_
  left
  rw [hmc]
  show (c6Es.echoThreshold : ℝ)
      ≤ ((1 / 1073741824 : ℚ) : ℝ)
          / Real.sqrt ((1 / 1152921504606846976 : ℚ) : ℝ)
  rw [hsq]
  norm_num [c6Es, newEchoSuppressor]

theorem removeEchoRealtime_nil (es : EchoSuppressor) (now : Int) :
    es.removeEchoRealtime [] now = [] := by
  simp [EchoSuppressor.removeEchoRealtime]

/-- Processing a chunk of RMS 0 from a non-speaking state with
nonnegative threshold and noise floor always lands in the silence branch:
the consecutive-frame counter is reset, lastRMS becomes 0, and only the
noise floor may additionally move. -/
theorem process_zero (v : RMSVAD) (now : Int)
    (hsp : v.isSpeaking = false) (hth : 0 ≤ v.threshold)
    (hnf : 0 ≤ v.noiseFloor) :
    ∃ nf1 : ℚ, v.process 0 now
      = (some ⟨.silence, now⟩,
         { v with lastRMS := 0, consecutiveFrames := 0, noiseFloor := nf1 }) := by
  have hthneg : ¬ (v.threshold < 0) := not_lt.2 hth
  have hc5 : ¬ ((3 : ℚ) / 10 < 0) := by norm_num
  by_cases hA : v.adaptiveMode = true
  · by_cases h1 : (0 : ℚ) < v.noiseFloor
    · refine ⟨0, ?_⟩
      by_cases hcap : (3 : ℚ) / 10 < v.threshold
      · simp [RMSVAD.process, hA, hsp, h1, hcap, hthneg, hc5]
      · simp [RMSVAD.process, hA, hsp, h1, hcap, hthneg, hc5]
    · have hnf0 : v.noiseFloor = 0 := le_antisymm (not_lt.1 h1) hnf
      by_cases h2 : (0 : ℚ) < v.threshold * 2
      · refine ⟨(1 - v.alpha) * v.noiseFloor + v.alpha * 0, ?_⟩
        by_cases hcap : (3 : ℚ) / 10 < v.threshold
        · simp [RMSVAD.process, hA, hsp, h1, h2, hnf0, hcap, hthneg, hc5]
        · simp [RMSVAD.process, hA, hsp, h1, h2, hnf0, hcap, hthneg, hc5]
      · refine ⟨v.noiseFloor, ?_⟩
        by_cases hcap : (3 : ℚ) / 10 < v.threshold
        · simp [RMSVAD.process, hA, hsp, h1, h2, hnf0, hcap, hthneg, hc5]
        · simp [RMSVAD.process, hA, hsp, h1, h2, hnf0, hcap, hthneg, hc5]
  · refine ⟨v.noiseFloor, ?_⟩
    simp [RMSVAD.process, hA, hsp, hthneg]

set_option maxHeartbeats 3200000 in
/--
C4 (amended).  On a stream whose VAD is not mid-speech (is_speaking
false, with nonnegative threshold and noise floor), a zero-length Write
returns success (nil error), emits no events, leaves the audio ring
buffer, the session and the stream flags (is_speaking, is_thinking,
user_interrupting) unchanged, forwards nothing to streaming STT and
schedules no batch turn — the empty chunk is classified as echo by the
energy check, so it never reaches the buffers.  Even then it is NOT a
VAD no-op: the chunk is processed as silence (RMS 0), which resets the
consecutive-frame counter and lastRMS and forces adaptive mode back on
(and may lower the noise floor); threshold, min_confirmed, silence limit
and silence timer are preserved, and the VAD stays non-speaking.  For a
VAD that is mid-speech no part of the no-op claim survives: the silence
timer runs against the zero-RMS chunk, and once the silence limit has
elapsed the same zero-length Write emits UserStopped, clears the ring
buffer and schedules the batch turn (second half of the counterexample).
-/
theorem claim_C4_zero_length_write (ms : MS) (v : RMSVAD)
    (es : EchoSuppressor) (now : Int) (sttErr : Option String)
    (hvad : ms.vad = some v) (hes : ms.echoSuppressor = some es)
    (hsp : v.isSpeaking = false) (hth : 0 ≤ v.threshold)
    (hnf : 0 ≤ v.noiseFloor) :
    (ms.write [] 0 now sttErr).err = none ∧
    (ms.write [] 0 now sttErr).ms.events = ms.events ∧
    (ms.write [] 0 now sttErr).ms.audioBuf = ms.audioBuf ∧
    (ms.write [] 0 now sttErr).ms.session = ms.session ∧
    (ms.write [] 0 now sttErr).ms.isSpeaking = ms.isSpeaking ∧
    (ms.write [] 0 now sttErr).ms.isThinking = ms.isThinking ∧
    (ms.write [] 0 now sttErr).ms.userInterrupting = ms.userInterrupting ∧
    (ms.write [] 0 now sttErr).sttForwarded = [] ∧
    (ms.write [] 0 now sttErr).scheduledBatch = none ∧
    ∃ v1, (ms.write [] 0 now sttErr).ms.vad = some v1 ∧
      v1.consecutiveFrames = 0 ∧ v1.isSpeaking = false ∧ v1.lastRMS = 0 ∧
      v1.threshold = v.threshold ∧ v1.minConfirmed = v.minConfirmed ∧
      v1.silenceLimit = v.silenceLimit ∧ v1.silenceStart = v.silenceStart ∧
      v1.adaptiveMode = true := by
  have hre := removeEchoRealtime_nil es now
  by_cases hms : ms.isSpeaking = true
  · by_cases hmc : v.minConfirmed < 3
    · obtain ⟨nf1, hz⟩ := process_zero (v.setMinConfirmed 3) now
        (by simpa [RMSVAD.setMinConfirmed] using hsp)
        (by simpa [RMSVAD.setMinConfirmed] using hth)
        (by simpa [RMSVAD.setMinConfirmed] using hnf)
      simp only [RMSVAD.setMinConfirmed, hsp] at hz
      norm_num [MS.write, hvad, hes, hre, hms, hmc, hz, hsp,
        RMSVAD.setMinConfirmed, RMSVAD.setThreshold, RMSVAD.setAdaptiveMode,
        bytesToSamples, calculateEnergy]
    · obtain ⟨nf1, hz⟩ := process_zero v now hsp hth hnf
      norm_num [MS.write, hvad, hes, hre, hms, hmc, hz, hsp,
        RMSVAD.setMinConfirmed, RMSVAD.setThreshold, RMSVAD.setAdaptiveMode,
        bytesToSamples, calculateEnergy]
  · rcases hlas : ms.lastAudioSentAt with _ | t
    · obtain ⟨nf1, hz⟩ := process_zero v now hsp hth hnf
      norm_num [MS.write, hvad, hes, hre, hms, hlas, hz, hsp,
        RMSVAD.setMinConfirmed, RMSVAD.setThreshold, RMSVAD.setAdaptiveMode,
        bytesToSamples, calculateEnergy]
    · by_cases hrec : now - t < 250
      · obtain ⟨nf1, hz⟩ := process_zero
          ((v.setAdaptiveMode false).setThreshold (1 / 4)) now
          (by simpa [RMSVAD.setAdaptiveMode, RMSVAD.setThreshold] using hsp)
          (by norm_num [RMSVAD.setAdaptiveMode, RMSVAD.setThreshold])
          (by simpa [RMSVAD.setAdaptiveMode, RMSVAD.setThreshold] using hnf)
        simp only [RMSVAD.setAdaptiveMode, RMSVAD.setThreshold, hsp] at hz
        norm_num [MS.write, hvad, hes, hre, hms, hlas, hrec, hz, hsp,
          RMSVAD.setMinConfirmed, RMSVAD.setThreshold, RMSVAD.setAdaptiveMode,
          bytesToSamples, calculateEnergy]
      · obtain ⟨nf1, hz⟩ := process_zero v now hsp hth hnf
        norm_num [MS.write, hvad, hes, hre, hms, hlas, hrec, hz, hsp,
          RMSVAD.setMinConfirmed, RMSVAD.setThreshold, RMSVAD.setAdaptiveMode,
          bytesToSamples, calculateEnergy]

/-- C4 counterexample, in two halves.  First: a zero-length Write is not
a VAD no-op even on a non-speaking VAD — on a stream whose VAD holds five
confirmed consecutive frames and a noise floor of 1/200, writing the
empty chunk returns success but resets the consecutive-frame counter to 0
and drops the noise floor to 0.  Second: on a stream whose VAD is
mid-speech with its silence limit already elapsed, the same zero-length
Write emits a UserStopped event, clears the nonempty ring buffer and
schedules a batch turn — so no unconditional no-events / frame-unchanged
reading of the claim survives. -/
theorem claim_C4_counterexample :
    c4Vad.consecutiveFrames = 5 ∧ c4Vad.noiseFloor = 1 / 200 ∧
    (c4Stream.write [] 0 0 none).err = none ∧
    ((c4Stream.write [] 0 0 none).ms.vad.map RMSVAD.consecutiveFrames)
      = some 0 ∧
    ((c4Stream.write [] 0 0 none).ms.vad.map RMSVAD.noiseFloor) = some 0 ∧
    (c4SpeakStream.write [] 0 1000 none).err = none ∧
    (c4SpeakStream.write [] 0 1000 none).ms.events
      = [⟨.userStopped, "s1", .empty⟩] ∧
    c4SpeakStream.events = [] ∧
    (c4SpeakStream.write [] 0 1000 none).ms.audioBuf = [] ∧
    c4SpeakStream.audioBuf = [1, 2] ∧
    (c4SpeakStream.write [] 0 1000 none).scheduledBatch = some [1, 2] := by
  have hz : RMSVAD.process
      { threshold := 1 / 10, silenceLimit := 700, isSpeaking := true,
        silenceStart := some 0, adaptiveMode := false, noiseFloor := 0,
        alpha := 0, consecutiveFrames := 0, minConfirmed := 7, lastRMS := 0 }
      0 1000
      = (some ⟨.speechEnd, 1000⟩,
         { threshold := 1 / 10, silenceLimit := 700, isSpeaking := false,
           silenceStart := none, adaptiveMode := false, noiseFloor := 0,
           alpha := 0, consecutiveFrames := 0, minConfirmed := 7,
           lastRMS := 0 }) := by
    norm_num [RMSVAD.process, Option.some_ne_none]
  have hne1 : VADEventType.speechEnd ≠ VADEventType.silence := by decide
  have hne2 : VADEventType.speechEnd ≠ VADEventType.speechStart := by decide
  have hne3 : EventType.userStopped ≠ EventType.audioChunk := by decide
  refine ⟨rfl, by norm_num [c4Vad, newRMSVAD], ?_, ?_, ?_, ?_, ?_, rfl, ?_,
    rfl, ?_⟩
  · norm_num [MS.write, c4Stream, c4Vad, sampleStream, newRMSVAD,
      newConversationSession, removeEchoRealtime_nil, RMSVAD.process,
      bytesToSamples, calculateEnergy, MS.emit, EchoSuppressor.isEcho,
      RMSVAD.setThreshold, RMSVAD.setMinConfirmed, RMSVAD.setAdaptiveMode]
  · norm_num [MS.write, c4Stream, c4Vad, sampleStream, newRMSVAD,
      newConversationSession, removeEchoRealtime_nil, RMSVAD.process,
      bytesToSamples, calculateEnergy, MS.emit, EchoSuppressor.isEcho,
      RMSVAD.setThreshold, RMSVAD.setMinConfirmed, RMSVAD.setAdaptiveMode]
  · norm_num [MS.write, c4Stream, c4Vad, sampleStream, newRMSVAD,
      newConversationSession, removeEchoRealtime_nil, RMSVAD.process,
      bytesToSamples, calculateEnergy, MS.emit, EchoSuppressor.isEcho,
      RMSVAD.setThreshold, RMSVAD.setMinConfirmed, RMSVAD.setAdaptiveMode]
  · norm_num [MS.write, c4SpeakStream, c4SpeakVad, sampleStream,
      newConversationSession, hz, hne1, hne2, hne3, eventsCap,
      newEchoSuppressor,
      EchoSuppressor.stalePlayback, removeEchoRealtime_nil, bytesToSamples,
      calculateEnergy, MS.emit, EchoSuppressor.isEcho, RMSVAD.setThreshold,
      RMSVAD.setMinConfirmed, RMSVAD.setAdaptiveMode, Option.some_ne_none]
  · norm_num [MS.write, c4SpeakStream, c4SpeakVad, sampleStream,
      newConversationSession, hz, hne1, hne2, hne3, eventsCap,
      newEchoSuppressor,
      EchoSuppressor.stalePlayback, removeEchoRealtime_nil, bytesToSamples,
      calculateEnergy, MS.emit, EchoSuppressor.isEcho, RMSVAD.setThreshold,
      RMSVAD.setMinConfirmed, RMSVAD.setAdaptiveMode, Option.some_ne_none]
  · norm_num [MS.write, c4SpeakStream, c4SpeakVad, sampleStream,
      newConversationSession, hz, hne1, hne2, hne3, eventsCap,
      newEchoSuppressor,
      EchoSuppressor.stalePlayback, removeEchoRealtime_nil, bytesToSamples,
      calculateEnergy, MS.emit, EchoSuppressor.isEcho, RMSVAD.setThreshold,
      RMSVAD.setMinConfirmed, RMSVAD.setAdaptiveMode, Option.some_ne_none]
  · norm_num [MS.write, c4SpeakStream, c4SpeakVad, sampleStream,
      newConversationSession, hz, hne1, hne2, hne3, eventsCap,
      newEchoSuppressor,
      EchoSuppressor.stalePlayback, removeEchoRealtime_nil, bytesToSamples,
      calculateEnergy, MS.emit, EchoSuppressor.isEcho, RMSVAD.setThreshold,
      RMSVAD.setMinConfirmed, RMSVAD.setAdaptiveMode, Option.some_ne_none]

theorem claim_C4_witness :
    (sampleStream.write [] 0 0 none).err = none ∧
    (sampleStream.write [] 0 0 none).ms.events = sampleStream.events ∧
    (sampleStream.write [] 0 0 none).ms.audioBuf = sampleStream.audioBuf ∧
    (sampleStream.write [] 0 0 none).scheduledBatch = none := by
  have h := claim_C4_zero_length_write sampleStream (newRMSVAD (1 / 10) 700)
    newEchoSuppressor 0 none rfl rfl rfl (by norm_num [newRMSVAD])
    (by norm_num [newRMSVAD])
  exact ⟨h.1, h.2.1, h.2.2.1, h.2.2.2.2.2.2.2.2.1⟩

end Lokutor
